import Mathlib

/-!
# Verification of dragonfly-core `Room2D` (`dragonfly/room2d.py`)

A shallow embedding of the `Room2D` entity, its adjacency resolver
(`solve_adjacency` / `set_adjacency`) and its roof-volume builder
(`_room_volume_with_roof` and helpers), over exact rational arithmetic.

Modelling conventions:
* Python floats become `ℚ`; every geometric comparison of the source
  (`<=` against a tolerance) is carried out exactly.  Square roots that the
  source takes (`seg.length`, areas of planar 3D faces) are computed by
  `ratSqrt`, which is exact whenever the true value is rational — which is
  the case at every concrete input used in this development.
* Python exceptions become `Except String` / `Option` results.  A Python
  method that mutates `self` becomes a function returning the updated room.
* Window parameters and shading parameters are opaque value types in the
  source's own specification; the embedding is polymorphic over a window
  parameter type `W` together with its contract (`WContract`): an
  area-from-segment function, a length-based flip, and an "is asymmetric"
  capability flag.
* The external geometry collaborator (`ladybug_geometry`) is not part of
  this repository.  Small pure functions of it (point/segment distance,
  bounding rectangles, point-in-polygon, plane projection, polyface edge
  bookkeeping) are modelled from their documented contracts; large opaque
  operations (polygon boolean intersection, overlapping-edge merging) and
  the repair helpers not exercised by any claim are abstracted into a
  `RoofOps` record of explicit function parameters.
-/

set_option maxHeartbeats 4000000

namespace Dragonfly

/-! ## 2D/3D points and segments (geometry collaborator, modelled) -/

/-- A 2D point with rational coordinates (`ladybug_geometry` `Point2D`). -/
structure Point2 where
  x : ℚ
  y : ℚ
  deriving DecidableEq, Repr

/-- A 3D point with rational coordinates (`ladybug_geometry` `Point3D`). -/
structure Point3 where
  x : ℚ
  y : ℚ
  z : ℚ
  deriving DecidableEq, Repr

/-- A 2D line segment between two end points (`LineSegment2D`). -/
structure Seg2 where
  p1 : Point2
  p2 : Point2
  deriving DecidableEq, Repr

/-- A 3D line segment between two end points (`LineSegment3D`). -/
structure Seg3 where
  p1 : Point3
  p2 : Point3
  deriving DecidableEq, Repr

/-- Squared distance between two 2D points. -/
def distSq2 (a b : Point2) : ℚ :=
  (a.x - b.x) ^ 2 + (a.y - b.y) ^ 2

/-- Squared distance between two 3D points. -/
def distSq3 (a b : Point3) : ℚ :=
  (a.x - b.x) ^ 2 + (a.y - b.y) ^ 2 + (a.z - b.z) ^ 2

/-- Exact rational square root: for `q = (a/b)^2` this returns `a/b`;
for rationals that are not perfect squares it returns the `Nat.sqrt`
under-approximation.  Every concrete input in this development has a
rational square root, where this function is exact. -/
def ratSqrt (q : ℚ) : ℚ :=
  if q ≤ 0 then 0 else (Nat.sqrt q.num.toNat : ℚ) / (Nat.sqrt q.den : ℚ)

/-- Length of a 2D segment (`LineSegment2D.length`); exact whenever the
true length is rational. -/
def segLength (s : Seg2) : ℚ := ratSqrt (distSq2 s.p1 s.p2)

/-- Squared distance from a point to a 2D segment, via the clamped
projection parameter (`LineSegment2D.distance_to_point`, squared). -/
def distToSegSq (s : Seg2) (p : Point2) : ℚ :=
  let dx := s.p2.x - s.p1.x
  let dy := s.p2.y - s.p1.y
  let dd := dx ^ 2 + dy ^ 2
  if dd = 0 then distSq2 p s.p1
  else
    let t := ((p.x - s.p1.x) * dx + (p.y - s.p1.y) * dy) / dd
    let t := max 0 (min 1 t)
    distSq2 p ⟨s.p1.x + t * dx, s.p1.y + t * dy⟩

/-- `seg.distance_to_point(p) <= tol`, decided exactly on the squares
(equivalent to the source's comparison for `tol ≥ 0`). -/
def distToSegLe (s : Seg2) (p : Point2) (tol : ℚ) : Bool :=
  0 ≤ tol ∧ distToSegSq s p ≤ tol ^ 2

/-- Two 3D points are equivalent within a tolerance
(`Point3D.is_equivalent`): each is within `tol` of the other.  The source
compares the Euclidean distance; we compare its square. -/
def ptEq3 (a b : Point3) (tol : ℚ) : Bool :=
  distSq3 a b ≤ tol ^ 2

/-- The closed ring of segments of a vertex loop (`Polygon2D.segments`):
consecutive vertices paired, wrapping the last back to the first. -/
def ringSegs2 (pts : List Point2) : List Seg2 :=
  match pts with
  | [] => []
  | p :: _ => (pts.zip (pts.drop 1 ++ [p])).map fun q => ⟨q.1, q.2⟩

/-- The closed ring of 3D segments of a vertex loop. -/
def ringSegs3 (pts : List Point3) : List Seg3 :=
  match pts with
  | [] => []
  | p :: _ => (pts.zip (pts.drop 1 ++ [p])).map fun q => ⟨q.1, q.2⟩

/-- Twice the signed (shoelace) area of a vertex loop. -/
def twiceSignedArea (pts : List Point2) : ℚ :=
  (ringSegs2 pts).foldl (fun a s => a + (s.p1.x * s.p2.y - s.p2.x * s.p1.y)) 0

/-- Unsigned polygon area (`Polygon2D.area`). -/
def polyArea (pts : List Point2) : ℚ := |twiceSignedArea pts| / 2

/-- `Polygon2D.is_clockwise`: negative signed area. -/
def isClockwise (pts : List Point2) : Bool := twiceSignedArea pts < 0

/-- Minimum over mapped rationals, with the first element as the base. -/
def listMinQ (l : List ℚ) : ℚ :=
  match l with
  | [] => 0
  | q :: qs => qs.foldl min q

/-- Maximum over mapped rationals, with the first element as the base. -/
def listMaxQ (l : List ℚ) : ℚ :=
  match l with
  | [] => 0
  | q :: qs => qs.foldl max q

/-- `Polygon2D.overlapping_bounding_rect`: bounding rectangles of the two
vertex loops overlap once each is expanded by the tolerance.  Modelled from
the geometry collaborator's documented contract. -/
def overlappingBoundingRect (a b : List Point2) (tol : ℚ) : Bool :=
  let aMinX := listMinQ (a.map Point2.x); let aMaxX := listMaxQ (a.map Point2.x)
  let aMinY := listMinQ (a.map Point2.y); let aMaxY := listMaxQ (a.map Point2.y)
  let bMinX := listMinQ (b.map Point2.x); let bMaxX := listMaxQ (b.map Point2.x)
  let bMinY := listMinQ (b.map Point2.y); let bMaxY := listMaxQ (b.map Point2.y)
  ¬(aMaxX + tol < bMinX ∨ bMaxX + tol < aMinX ∨
    aMaxY + tol < bMinY ∨ bMaxY + tol < aMinY)

/-! ## Boundary conditions -/

/-- The closed variant of wall boundary conditions used by `Room2D`
(`honeybee.boundarycondition`): `surface` stores the pair of
boundary-condition object identifiers `(face_identifier, room_identifier)`
exactly as the source's `Surface` stores them. -/
inductive BoundaryCondition where
  | outdoors
  | ground
  | adiabatic
  | surface (faceObj : String) (roomObj : String)
  deriving DecidableEq, Repr

/-- Whether a boundary condition is a `Surface` condition. -/
def BoundaryCondition.isSurface : BoundaryCondition → Bool
  | .surface _ _ => true
  | _ => false

/-- Whether a boundary condition admits windows (`Outdoors` or `Surface`),
mirroring `isinstance(bc, (Outdoors, Surface))` in the setters. -/
def BoundaryCondition.allowsWindows : BoundaryCondition → Bool
  | .outdoors => true
  | .surface _ _ => true
  | _ => false

/-- The `Surface` boundary condition that `set_adjacency` builds to point
at segment `k` of the room with the given identifier:
`('{identifier}..Face{k+1}', identifier)`. -/
def surfaceRef (identifier : String) (k : Nat) : BoundaryCondition :=
  .surface (identifier ++ "..Face" ++ toString (k + 1)) identifier

/-! ## Window parameter contract (opaque value type) -/

/-- The contract of the opaque window parameter type (spec §1): an
area-from-segment function, a length-based flip for vertically
asymmetric parameters, and the asymmetry capability flag
(`isinstance(wp, _AsymmetricBase)`). -/
structure WContract (W : Type) where
  isAsymmetric : W → Bool
  flip : W → ℚ → W
  areaFromSegment : W → Seg2 → ℚ → ℚ

/-- `wp.flip(length) if isinstance(wp, _AsymmetricBase) else wp`, lifted to
nullable window parameters exactly as the Python expression behaves on
`None` (no flip). -/
def flipIfAsym {W : Type} (wc : WContract W) (wp : Option W) (len : ℚ) : Option W :=
  match wp with
  | none => none
  | some w => some (if wc.isAsymmetric w then wc.flip w len else w)

/-- `wp.area_from_segment(seg, h) if wp is not None else 0`. -/
def areaOpt {W : Type} (wc : WContract W) (wp : Option W) (seg : Seg2) (h : ℚ) : ℚ :=
  match wp with
  | none => 0
  | some w => wc.areaFromSegment w seg h

/-! ## The Room2D entity -/

/-- The `Room2D` state: the floor polygon (outer boundary plus hole rings
of 2D points in a horizontal plane at `floorHeight`), the four per-segment
arrays, the cached `_segment_count`, and the room-level flags the claims
touch.  Shading parameters are opaque values never inspected beyond list
bookkeeping; they are modelled as `Option Nat`. -/
structure Room2D (W : Type) where
  identifier : String
  boundary : List Point2
  holes : List (List Point2)
  floorHeight : ℚ
  floorToCeilingHeight : ℚ
  segmentCountF : Nat
  boundaryConditions : List BoundaryCondition
  windowParameters : List (Option W)
  shadingParameters : List (Option Nat)
  airBoundaries : Option (List Bool)
  isGroundContact : Bool
  isTopExposed : Bool
  deriving DecidableEq, Repr

namespace Room2D

variable {W : Type}

/-- `ceiling_height = floor_height + floor_to_ceiling_height`. -/
def ceilingHeight (r : Room2D W) : ℚ := r.floorHeight + r.floorToCeilingHeight

/-- The geometric segment count: outer-ring segments followed by the
hole-ring segments (`len(floor_segments)`). -/
def geomSegCount (r : Room2D W) : Nat :=
  r.boundary.length + (r.holes.map List.length).sum

/-- `floor_segments_2d`: boundary-ring segments followed by each hole's
ring segments. -/
def floorSegments2 (r : Room2D W) : List Seg2 :=
  ringSegs2 r.boundary ++ r.holes.flatMap ringSegs2

/-- `__len__` returns the cached `_segment_count`. -/
def len (r : Room2D W) : Nat := r.segmentCountF

/-- `air_boundaries` getter: materialises `[False] * len(self)` when the
stored value is `None`. -/
def airBoundariesOrDefault (r : Room2D W) : List Bool :=
  r.airBoundaries.getD (List.replicate r.len false)

/-- `_check_wall_assigned_object`: a wall-assigned list must have exactly
`len(self)` entries, else the assignment fails. -/
def checkWallAssigned {α : Type} (r : Room2D W) (value : List α) :
    Except String (List α) :=
  if value.length = r.len then .ok value
  else .error "Input length must be the same as the number of floor_segments."

/-- `boundary_conditions` setter: length check, then each condition paired
with a non-null window parameter must admit windows. -/
def setBoundaryConditions (r : Room2D W) (value : List BoundaryCondition) :
    Except String (Room2D W) := do
  let v ← r.checkWallAssigned value
  if (v.zip r.windowParameters).all
      (fun p => p.2.isNone || p.1.allowsWindows) then
    .ok { r with boundaryConditions := v }
  else .error "cannot be assigned to a wall with windows."

/-- `window_parameters` setter: `None` clears every window; otherwise
length check plus a check that every non-null parameter sits on an
`Outdoors`/`Surface` segment. -/
def setWindowParameters (r : Room2D W) (value : Option (List (Option W))) :
    Except String (Room2D W) := do
  match value with
  | none => .ok { r with windowParameters := List.replicate r.len none }
  | some v =>
    let v ← r.checkWallAssigned v
    if (v.zip r.boundaryConditions).all
        (fun p => p.1.isNone || p.2.allowsWindows) then
      .ok { r with windowParameters := v }
    else .error "cannot be assigned to a wall with windows."

/-- `shading_parameters` setter. -/
def setShadingParameters (r : Room2D W) (value : Option (List (Option Nat))) :
    Except String (Room2D W) := do
  match value with
  | none => .ok { r with shadingParameters := List.replicate r.len none }
  | some v =>
    let v ← r.checkWallAssigned v
    .ok { r with shadingParameters := v }

/-- `air_boundaries` setter: `None` stores `None`; otherwise length check
plus the check that a `True` entry sits on a windowless `Surface` segment. -/
def setAirBoundaries (r : Room2D W) (value : Option (List Bool)) :
    Except String (Room2D W) := do
  match value with
  | none => .ok { r with airBoundaries := none }
  | some v =>
    let v ← r.checkWallAssigned v
    if (v.zip (r.boundaryConditions.zip r.windowParameters)).all
        (fun p => !p.1 || (p.2.1.isSurface && p.2.2.isNone)) then
      .ok { r with airBoundaries := some v }
    else .error "Air boundaries must be assigned to interior walls."

end Room2D

/-! ## Construction (`Room2D.__init__`, `Room2D.from_polygon`) -/

/-- `_flip_wall_assigned_objects`: reverse the boundary's wall-assigned
lists, flipping asymmetric window parameters with the lengths of the
original boundary segments; hole entries are carried over unreversed. -/
def flipWallAssignedObjects {W : Type} (wc : WContract W)
    (origBoundary : List Point2)
    (bcs : List BoundaryCondition) (wins : List (Option W))
    (shds : List (Option Nat)) :
    List BoundaryCondition × List (Option W) × List (Option Nat) :=
  let boundLen := origBoundary.length
  let segs := ringSegs2 origBoundary
  let newBcs := (bcs.take boundLen).reverse
  let newWins :=
    ((segs.zip (wins.take boundLen)).map
      (fun p => flipIfAsym wc p.2 (segLength p.1))).reverse
  let newShds := (shds.take boundLen).reverse
  (newBcs ++ bcs.drop boundLen, newWins ++ wins.drop boundLen,
   newShds ++ shds.drop boundLen)

/-- The boundary-condition processing of `Room2D.__init__`: `None`
defaults every segment to the given condition (`Outdoors`, or `Ground`
when `ceiling_height <= 0`); an explicit list goes through the
wall-assigned length check. -/
def initialBoundaryConditions {W : Type} (r : Room2D W)
    (defaultBc : BoundaryCondition)
    (obcs : Option (List BoundaryCondition)) :
    Except String (List BoundaryCondition) :=
  match obcs with
  | none => .ok (List.replicate r.len defaultBc)
  | some v => r.checkWallAssigned v

/-- `Room2D.__init__`.  The floor geometry arrives as a boundary ring,
hole rings and a floor height.  A downward-facing input (`normal.z < 0`,
i.e. a clockwise boundary) is flipped and at the end the wall-assigned
objects are re-aligned with the flipped geometry.  Boundary conditions
default to `Outdoors`, or `Ground` when `ceiling_height <= 0`; window and
shading parameters are assigned through their setters.  The horizontal
plane check is omitted: boundary vertices carry a single `floorHeight`
coordinate by construction. -/
def room2DInit {W : Type} (wc : WContract W) (identifier : String)
    (boundary : List Point2) (holes : List (List Point2))
    (floorHeight floorToCeilingHeight : ℚ)
    (boundaryConditions : Option (List BoundaryCondition))
    (windowParameters : Option (List (Option W)))
    (shadingParameters : Option (List (Option Nat)))
    (isGroundContact isTopExposed : Bool) :
    Except String (Room2D W) := do
  -- ensure an upward-facing floor geometry
  let flipped := isClockwise boundary
  let boundary' := if flipped then boundary.reverse else boundary
  let holes' := if flipped then holes.map List.reverse else holes
  -- floor-to-ceiling height through its setter (`float_positive`, `!= 0`)
  if floorToCeilingHeight ≤ 0 then
    .error "Room2D floor-to-ceiling height cannot be zero."
  else
  let segCount := boundary'.length + (holes'.map List.length).sum
  let base : Room2D W :=
    { identifier := identifier, boundary := boundary', holes := holes',
      floorHeight := floorHeight,
      floorToCeilingHeight := floorToCeilingHeight,
      segmentCountF := segCount,
      boundaryConditions := [], windowParameters := [],
      shadingParameters := [], airBoundaries := none,
      isGroundContact := isGroundContact, isTopExposed := isTopExposed }
  -- process the boundary conditions
  let bcs ← initialBoundaryConditions base
    (if 0 < floorHeight + floorToCeilingHeight then
      BoundaryCondition.outdoors else BoundaryCondition.ground)
    boundaryConditions
  let base := { base with boundaryConditions := bcs }
  -- window and shading parameters through their setters
  let base ← base.setWindowParameters windowParameters
  let base ← base.setShadingParameters shadingParameters
  -- re-align wall-assigned objects if the geometry was flipped
  if flipped then
    let fo := flipWallAssignedObjects wc boundary
      base.boundaryConditions base.windowParameters base.shadingParameters
    .ok { base with
            boundaryConditions := fo.1
            windowParameters := fo.2.1
            shadingParameters := fo.2.2 }
  else
    .ok base

/-- `Room2D.from_polygon`: reverse a clockwise polygon (reversing the
boundary conditions, flipping asymmetric window parameters with the
reversed polygon's segment lengths, and reversing the shading
parameters), then construct the room at the floor height. -/
def fromPolygon {W : Type} (wc : WContract W) (identifier : String)
    (polygon : List Point2) (floorHeight floorToCeilingHeight : ℚ)
    (boundaryConditions : Option (List BoundaryCondition) := none)
    (windowParameters : Option (List (Option W)) := none)
    (shadingParameters : Option (List (Option Nat)) := none)
    (isGroundContact : Bool := false) (isTopExposed : Bool := false) :
    Except String (Room2D W) :=
  let (polygon, boundaryConditions, windowParameters, shadingParameters) :=
    if isClockwise polygon then
      let poly' := polygon.reverse
      let bcs' := boundaryConditions.map List.reverse
      let wins' := windowParameters.map fun wp =>
        ((ringSegs2 poly').zip wp.reverse).map
          (fun p => flipIfAsym wc p.2 (segLength p.1))
      let shds' := shadingParameters.map List.reverse
      (poly', bcs', wins', shds')
    else (polygon, boundaryConditions, windowParameters, shadingParameters)
  room2DInit wc identifier polygon [] floorHeight floorToCeilingHeight
    boundaryConditions windowParameters shadingParameters
    isGroundContact isTopExposed

/-! ## `Room2D.remove_duplicate_vertices` -/

/-- Two 2D points are equivalent within a tolerance
(`Point2D/Point3D.is_equivalent` at equal heights, squared comparison). -/
def ptEq2 (a b : Point2) (tol : ℚ) : Bool :=
  distSq2 a b ≤ tol ^ 2

/-- The source's rotation `pts[1:] + (pts[0],)`. -/
def rotated (pts : List Point2) : List Point2 := pts.drop 1 ++ pts.take 1

/-- `l[i - 1]` with Python semantics: index `-1` is the last element. -/
def prevAt (l : List Point2) (i : Nat) : Point2 :=
  if i = 0 then (l.getLast?).getD ⟨0, 0⟩ else l.getD (i - 1) ⟨0, 0⟩

/-- The loop indices of a rotated ring whose vertex is kept by
`remove_duplicate_vertices` (`not vert.is_equivalent(b_pts[i - 1], tol)`). -/
def keptIndices (rot : List Point2) (tol : ℚ) : List Nat :=
  (List.range rot.length).filter fun i => !ptEq2 (rot.getD i ⟨0, 0⟩) (prevAt rot i) tol

/-- The loop indices dropped by `remove_duplicate_vertices`. -/
def droppedIndices (rot : List Point2) (tol : ℚ) : List Nat :=
  (List.range rot.length).filter fun i => ptEq2 (rot.getD i ⟨0, 0⟩) (prevAt rot i) tol

namespace Room2D

variable {W : Type}

/-- The hole pass of `remove_duplicate_vertices`: walks the hole rings with
the running segment-count offset, collecting the kept hole vertices and the
kept entries of each per-segment array.  The air-boundary entry is read at
the local index `i` (not `seg_count + i`), exactly as the source does at
line 2601. -/
def rdvHoles (bcs : List BoundaryCondition) (wins : List (Option W))
    (shds : List (Option Nat)) (exab : List Bool) (tol : ℚ) :
    List (List Point2) → Nat →
    List (List Point2) × List BoundaryCondition × List (Option W) ×
      List (Option Nat) × List Bool × List Nat
  | [], _ => ([], [], [], [], [], [])
  | h :: hs, segc =>
    let rot := rotated h
    let kept := keptIndices rot tol
    let rest := rdvHoles bcs wins shds exab tol hs (segc + rot.length)
    (kept.map (prevAt rot) :: rest.1,
     kept.map (fun i => bcs.getD (segc + i) .outdoors) ++ rest.2.1,
     kept.map (fun i => wins.getD (segc + i) none) ++ rest.2.2.1,
     kept.map (fun i => shds.getD (segc + i) none) ++ rest.2.2.2.1,
     kept.map (fun i => exab.getD i false) ++ rest.2.2.2.2.1,
     droppedIndices rot tol ++ rest.2.2.2.2.2)

/-- `Room2D.remove_duplicate_vertices`: drop boundary (and hole) vertices
equivalent to their predecessor within the tolerance, keeping the four
per-segment arrays in lockstep; fails with the degenerate-room `ValueError`
when fewer than three boundary vertices remain (the `Face3D` assertion).
Returns the updated room and the removed loop indices. -/
def removeDuplicateVertices (r : Room2D W) (tol : ℚ) :
    Except String (Room2D W × List Nat) :=
  let exab := r.airBoundariesOrDefault
  let rot := rotated r.boundary
  let kept := keptIndices rot tol
  let newBound := kept.map (prevAt rot)
  let bBcs := kept.map (fun i => r.boundaryConditions.getD i .outdoors)
  let bWins := kept.map (fun i => r.windowParameters.getD i none)
  let bShds := kept.map (fun i => r.shadingParameters.getD i none)
  let bAbs := kept.map (fun i => exab.getD i false)
  let rh :=
    if r.holes.isEmpty then ([], [], [], [], [], [])
    else rdvHoles r.boundaryConditions r.windowParameters
      r.shadingParameters exab tol r.holes rot.length
  if newBound.length < 3 then
    .error "Room2D is degenerate with dimensions less than the tolerance."
  else
    .ok ({ r with
            boundary := newBound
            holes := rh.1
            segmentCountF := (bBcs ++ rh.2.1).length
            boundaryConditions := bBcs ++ rh.2.1
            windowParameters := bWins ++ rh.2.2.1
            shadingParameters := bShds ++ rh.2.2.2.1
            airBoundaries := some (bAbs ++ rh.2.2.2.2.1) },
         droppedIndices rot tol ++ rh.2.2.2.2.2)

end Room2D

/-! ## Adjacency (`set_adjacency`, `solve_adjacency`) -/

/-- An adjacency pair as recorded by `solve_adjacency`: the room
(identified by its `identifier`) and the index of the matched wall
segment, for both sides. -/
abbrev AdjPair : Type := (String × Nat) × (String × Nat)

/-- A default segment used for out-of-range reads (never reached at the
valid indices the callers supply). -/
def defaultSeg : Seg2 := ⟨⟨0, 0⟩, ⟨0, 0⟩⟩

namespace Room2D

variable {W : Type} [DecidableEq W]

/-- Window parameter of segment `i` (`self._window_parameters[i]`). -/
def winAt (r : Room2D W) (i : Nat) : Option W :=
  r.windowParameters.getD i none

/-- Boundary condition of segment `i`. -/
def bcAt (r : Room2D W) (i : Nat) : BoundaryCondition :=
  r.boundaryConditions.getD i .outdoors

/-- `Room2D.set_adjacency`: make segment `i` of `r1` and segment `j` of
`r2` reference each other with `Surface` conditions, then resolve or
reject window-parameter conflicts.  With resolution enabled the parameter
with the larger area (computed with the smaller of the two
floor-to-ceiling heights) is kept and mirrored onto the other segment,
flipped by the receiving segment's length when asymmetric; with
resolution disabled unequal parameters raise the `AssertionError`. -/
def setAdjacency (wc : WContract W) (r1 r2 : Room2D W) (i j : Nat)
    (resolveWindowConflicts : Bool) :
    Except String (Room2D W × Room2D W) :=
  let r1' := { r1 with boundaryConditions :=
    r1.boundaryConditions.set i (surfaceRef r2.identifier j) }
  let r2' := { r2 with boundaryConditions :=
    r2.boundaryConditions.set j (surfaceRef r1.identifier i) }
  let wp1 := r1.winAt i
  let wp2 := r2.winAt j
  if wp1.isSome || wp2.isSome then
    if decide (wp1 ≠ wp2) || (wp1.map wc.isAsymmetric).getD false then
      if resolveWindowConflicts then
        let minFtc := min r1.floorToCeilingHeight r2.floorToCeilingHeight
        let seg1 := (floorSegments2 r1).getD i defaultSeg
        let seg2 := (floorSegments2 r2).getD j defaultSeg
        let a1 := areaOpt wc wp1 seg1 minFtc
        let a2 := areaOpt wc wp2 seg2 minFtc
        if a1 > a2 then
          .ok (r1', { r2' with windowParameters :=
            r2'.windowParameters.set j (flipIfAsym wc wp1 (segLength seg2)) })
        else
          .ok ({ r1' with windowParameters :=
            r1'.windowParameters.set i (flipIfAsym wc wp2 (segLength seg1)) },
            r2')
      else
        if wp1 ≠ wp2 then
          .error "Window parameters do not match between adjacent Rooms."
        else .ok (r1', r2')
    else .ok (r1', r2')
  else .ok (r1', r2')

end Room2D

/-- The segment-match test of `solve_adjacency`: both end points of the
second segment lie within the tolerance of the first segment. -/
def segMatch (s1 s2 : Seg2) (tol : ℚ) : Bool :=
  distToSegLe s1 s2.p1 tol && distToSegLe s1 s2.p2 tol

/-- The inner `k` loop of `solve_adjacency` for a fixed segment of the
first room: the first segment of `r2` that does not already carry a
`Surface` condition and geometrically matches `seg1` (the `break` makes
later candidates unreachable). -/
def findMatchK {W : Type} (r2 : Room2D W) (seg1 : Seg2) (tol : ℚ) :
    Option Nat :=
  let segs := r2.floorSegments2
  (List.range segs.length).find? fun k =>
    !(r2.bcAt k).isSurface && segMatch seg1 (segs.getD k defaultSeg) tol

/-- The `j` loop of `solve_adjacency` for one room pair: each segment of
`r1` is matched against the segments of `r2`, threading through the
updated rooms and accumulating adjacency pairs in discovery order. -/
def jLoop {W : Type} [DecidableEq W] (wc : WContract W)
    (r1 r2 : Room2D W) (tol : ℚ) (rwc : Bool) :
    Except String (Room2D W × Room2D W × List AdjPair) :=
  let segs1 := r1.floorSegments2
  (List.range segs1.length).foldlM
    (fun st j =>
      match findMatchK st.2.1 (segs1.getD j defaultSeg) tol with
      | none => .ok st
      | some k => do
        let (r1', r2') ← Room2D.setAdjacency wc st.1 st.2.1 j k rwc
        .ok (r1', r2',
          st.2.2 ++ [((st.1.identifier, j), (st.2.1.identifier, k))]))
    (r1, r2, ([] : List AdjPair))

/-- One room pair of `solve_adjacency`: skipped entirely when the
bounding rectangles do not overlap within the tolerance. -/
def procPair {W : Type} [DecidableEq W] (wc : WContract W)
    (r1 r2 : Room2D W) (tol : ℚ) (rwc : Bool) :
    Except String (Room2D W × Room2D W × List AdjPair) :=
  if overlappingBoundingRect r1.boundary r2.boundary tol then
    jLoop wc r1 r2 tol rwc
  else .ok (r1, r2, [])

/-- Process one room against every later room, threading the updated
states through. -/
def procOne {W : Type} [DecidableEq W] (wc : WContract W)
    (r1 : Room2D W) (rest : List (Room2D W)) (tol : ℚ) (rwc : Bool) :
    Except String (Room2D W × List (Room2D W) × List AdjPair) :=
  match rest with
  | [] => .ok (r1, [], [])
  | r2 :: rs => do
    let (r1', r2', ps) ← procPair wc r1 r2 tol rwc
    let (r1'', rs', ps') ← procOne wc r1' rs tol rwc
    .ok (r1'', r2' :: rs', ps ++ ps')

/-- The nested room-pair loops of `solve_adjacency`, with a fuel
parameter for termination; `procOne` preserves the length of the room
list, so with fuel equal to the list length the fuel never runs dry. -/
def solveCoreFuel {W : Type} [DecidableEq W] (wc : WContract W) :
    Nat → List (Room2D W) → ℚ → Bool →
    Except String (List (Room2D W) × List AdjPair)
  | _, [], _, _ => .ok ([], [])
  | 0, rooms, _, _ => .ok (rooms, [])
  | fuel + 1, r :: rs, tol, rwc => do
    let (r', rs', ps) ← procOne wc r rs tol rwc
    let (rs'', ps') ← solveCoreFuel wc fuel rs' tol rwc
    .ok (r' :: rs'', ps ++ ps')

/-- The nested room-pair loops of `solve_adjacency`. -/
def solveCore {W : Type} [DecidableEq W] (wc : WContract W)
    (rooms : List (Room2D W)) (tol : ℚ) (rwc : Bool) :
    Except String (List (Room2D W) × List AdjPair) :=
  solveCoreFuel wc rooms.length rooms tol rwc

/-- The initial duplicate-vertex sweep of `solve_adjacency`:
`remove_duplicate_vertices` with the degenerate-room `ValueError`
swallowed (`except ValueError: pass`). -/
def rdvSafe {W : Type} (tol : ℚ) (r : Room2D W) : Room2D W :=
  match r.removeDuplicateVertices tol with
  | .ok (r', _) => r'
  | .error _ => r

/-- `Room2D.solve_adjacency`: remove duplicate vertices from every room
(ignoring degenerate failures), then link every pair of geometrically
matching segments, returning the updated rooms and the adjacency pairs. -/
def solveAdjacency {W : Type} [DecidableEq W] (wc : WContract W)
    (rooms : List (Room2D W)) (tol : ℚ) (rwc : Bool := true) :
    Except String (List (Room2D W) × List AdjPair) :=
  solveCore wc (rooms.map (rdvSafe tol)) tol rwc

/-! ## Helper lemmas -/

/-- `List.getD` after `List.set` at the written index. -/
theorem getD_set_self {α : Type} :
    ∀ (l : List α) (i : Nat) (v d : α), i < l.length →
      (l.set i v).getD i d = v := by
  intro l
  induction l with
  | nil => intro i v d h; simp at h
  | cons a as ih =>
    intro i v d h
    cases i with
    | zero => rfl
    | succ n =>
      simp only [List.set_cons_succ, List.getD_cons_succ]
      exact ih n v d (by simpa using h)

/-- Binding a successful `Except` computation applies the continuation. -/
theorem exceptBindOk {ε α β : Type} (a : α) (f : α → Except ε β) :
    (Except.ok (ε := ε) a >>= f) = f a := rfl

/-- A monadic fold over `Except` whose step fixes the state returns the
state unchanged. -/
theorem foldlM_ok_const {α β ε : Type} :
    ∀ (l : List α) (f : β → α → Except ε β) (st : β),
      (∀ x ∈ l, f st x = .ok st) → l.foldlM f st = .ok st := by
  intro l
  induction l with
  | nil => intro f st _; rfl
  | cons a as ih =>
    intro f st h
    have ha := h a (by simp)
    rw [List.foldlM_cons, ha, exceptBindOk]
    exact ih f st (fun x hx => h x (by simp [hx]))

/-! ## Concrete instances used by witnesses and counterexamples -/

/-- Trivial window-parameter contract for rooms without windows. -/
def unitWC : WContract Unit :=
  { isAsymmetric := fun _ => false
    flip := fun w _ => w
    areaFromSegment := fun _ _ _ => 0 }

/-- A mock window parameter for exercising the conflict-resolution
contract: a fixed area, an asymmetry flag, and a counter recording how
often the parameter was flipped. -/
structure MockWin where
  areaVal : ℚ
  asym : Bool
  flipCount : Nat := 0
  deriving DecidableEq, Repr

/-- Contract instance for `MockWin`. -/
def mockWC : WContract MockWin :=
  { isAsymmetric := fun w => w.asym
    flip := fun w _ => { w with flipCount := w.flipCount + 1 }
    areaFromSegment := fun w _ _ => w.areaVal }

/-- A windowless `Room2D` over a boundary ring with all segments
`Outdoors`, used to build concrete adjacency scenarios. -/
def mkRoom (id : String) (b : List Point2) : Room2D Unit :=
  { identifier := id, boundary := b, holes := [], floorHeight := 0,
    floorToCeilingHeight := 3, segmentCountF := b.length,
    boundaryConditions := List.replicate b.length .outdoors,
    windowParameters := List.replicate b.length none,
    shadingParameters := List.replicate b.length none,
    airBoundaries := some (List.replicate b.length false),
    isGroundContact := false, isTopExposed := false }

/-- Fallback room value for total list reads in closed statements. -/
def noRoom : Room2D Unit := mkRoom "" []

/-- Unit square room `A` on `(0,0)–(1,1)`. -/
def cexA : Room2D Unit := mkRoom "A" [⟨0, 0⟩, ⟨1, 0⟩, ⟨1, 1⟩, ⟨0, 1⟩]

/-- Unit square room `B` on `(0,-1)–(1,0)`; its segment 2 coincides with
segment 0 of `cexA`. -/
def cexB : Room2D Unit := mkRoom "B" [⟨0, -1⟩, ⟨1, -1⟩, ⟨1, 0⟩, ⟨0, 0⟩]

/-- Room `C` with the same footprint as `cexB`: its segment 2 also
coincides with segment 0 of `cexA`. -/
def cexC : Room2D Unit := mkRoom "C" [⟨0, -1⟩, ⟨1, -1⟩, ⟨1, 0⟩, ⟨0, 0⟩]

/-- The room list after `solve_adjacency` on `[cexA, cexB, cexC]`. -/
def cexSolved : List (Room2D Unit) :=
  ((solveAdjacency unitWC [cexA, cexB, cexC] (1 / 100) true).toOption.map
    Prod.fst).getD []

/-! ## C1 — adjacency symmetry -/

/-- C1 (counterexample): the spec claims that after `solve_adjacency`
every `Surface` reference is mutual.  With three coincident segments the
first room's side is overwritten by a later match: after solving
`[A, B, C]` (where `B` and `C` share `A`'s lower wall), `B`'s segment 2
references `(A, 0)` but `A`'s segment 0 references `(C, 2)`, not
`(B, 2)` — the link is one-sided. -/
theorem solve_adjacency_symmetry_cex :
    ((cexSolved.getD 1 noRoom).bcAt 2 = surfaceRef "A" 0 ∧
     (cexSolved.getD 0 noRoom).bcAt 0 = surfaceRef "C" 2) ∧
    surfaceRef "C" 2 ≠ surfaceRef "B" 2 := by
  with_unfolding_all decide

/-- C1 (amended): each individual `set_adjacency` call does establish the
mutual link — segment `i` of the first room references `(r2, j)` and
segment `j` of the second room references `(r1, i)`; the one-sidedness
after `solve_adjacency` arises only when a later match overwrites the
first room's side. -/
theorem set_adjacency_mutual_links {W : Type} [DecidableEq W]
    (wc : WContract W) (r1 r2 : Room2D W) (i j : Nat) (rwc : Bool)
    (r1' r2' : Room2D W)
    (hi : i < r1.boundaryConditions.length)
    (hj : j < r2.boundaryConditions.length)
    (h : Room2D.setAdjacency wc r1 r2 i j rwc = .ok (r1', r2')) :
    r1'.bcAt i = surfaceRef r2.identifier j ∧
    r2'.bcAt j = surfaceRef r1.identifier i := by
  unfold Room2D.setAdjacency at h
  dsimp only at h
  split_ifs at h <;>
    simp only [Except.ok.injEq, Prod.mk.injEq] at h <;>
    obtain ⟨h1, h2⟩ := h <;> subst h1 <;> subst h2 <;>
    exact ⟨getD_set_self _ _ _ _ hi, getD_set_self _ _ _ _ hj⟩

/-- Witness for `set_adjacency_mutual_links` at a concrete input. -/
theorem set_adjacency_mutual_links_witness :
    ((Room2D.setAdjacency unitWC cexA cexB 0 2 true).toOption.getD
        (noRoom, noRoom)).1.bcAt 0 = surfaceRef "B" 2 ∧
    ((Room2D.setAdjacency unitWC cexA cexB 0 2 true).toOption.getD
        (noRoom, noRoom)).2.bcAt 2 = surfaceRef "A" 0 :=
  set_adjacency_mutual_links unitWC cexA cexB 0 2 true _ _
    (by decide) (by decide) rfl

/-! ## C3 — adjacency idempotence -/

/-- Room with a wall from `(0,0)` to `(2,0)` that room `cexB3` subdivides
into two coincident candidate segments. -/
def cexA3 : Room2D Unit := mkRoom "A" [⟨0, 0⟩, ⟨2, 0⟩, ⟨2, 1⟩, ⟨0, 1⟩]

/-- Room below `cexA3` whose top wall is split at `(1,0)`: both of its
top segments geometrically match segment 0 of `cexA3`. -/
def cexB3 : Room2D Unit :=
  mkRoom "B" [⟨0, -1⟩, ⟨2, -1⟩, ⟨2, 0⟩, ⟨1, 0⟩, ⟨0, 0⟩]

/-- The room list after one run of `solve_adjacency` on `[cexA3, cexB3]`. -/
def cexRun1 : List (Room2D Unit) :=
  ((solveAdjacency unitWC [cexA3, cexB3] (1 / 100) true).toOption.map
    Prod.fst).getD []

/-- The room list after a second run of `solve_adjacency`. -/
def cexRun2 : List (Room2D Unit) :=
  ((solveAdjacency unitWC cexRun1 (1 / 100) true).toOption.map
    Prod.fst).getD []

/-- C3 (counterexample): `solve_adjacency` is not idempotent, and a
segment already carrying a `Surface` condition can be reassigned by a
repeated run.  After one run, `A`'s segment 0 references `(B, 2)`; the
second run rematches the already-`Surface` segment `A 0` to the still
unmatched coincident segment `(B, 3)`, changing the assignments of both
rooms. -/
theorem solve_adjacency_idempotent_cex :
    ((cexRun1.getD 0 noRoom).bcAt 0 = surfaceRef "B" 2 ∧
     (cexRun2.getD 0 noRoom).bcAt 0 = surfaceRef "B" 3) ∧
    ((cexRun1.getD 1 noRoom).bcAt 3 = .outdoors ∧
     (cexRun2.getD 1 noRoom).bcAt 3 = surfaceRef "A" 0) := by
  with_unfolding_all decide

/-- The per-pair condition under which `solve_adjacency` can fire no
match: every segment of the later room that geometrically matches a
segment of the earlier room already carries a `Surface` condition. -/
def matchedSidesSurface {W : Type} (tol : ℚ) (r1 r2 : Room2D W) : Prop :=
  ∀ j < r1.floorSegments2.length, ∀ k < r2.floorSegments2.length,
    segMatch (r1.floorSegments2.getD j defaultSeg)
      (r2.floorSegments2.getD k defaultSeg) tol = true →
    (r2.bcAt k).isSurface = true

instance {W : Type} (tol : ℚ) (r1 r2 : Room2D W) :
    Decidable (matchedSidesSurface tol r1 r2) := by
  unfold matchedSidesSurface; infer_instance

/-- When every geometric match into `r2` is already `Surface`, the inner
`k` loop finds no candidate. -/
theorem findMatchK_eq_none {W : Type} (r2 : Room2D W) (seg1 : Seg2)
    (tol : ℚ)
    (h : ∀ k < r2.floorSegments2.length,
      segMatch seg1 (r2.floorSegments2.getD k defaultSeg) tol = true →
      (r2.bcAt k).isSurface = true) :
    findMatchK r2 seg1 tol = none := by
  unfold findMatchK
  refine List.find?_eq_none.mpr (fun k hk => ?_)
  simp only [List.mem_range] at hk
  cases hsm : segMatch seg1 (r2.floorSegments2.getD k defaultSeg) tol with
  | false => simp [hsm]
  | true => simp [hsm, h k hk hsm]

/-- A room pair satisfying `matchedSidesSurface` is left untouched by the
pair loop of `solve_adjacency`. -/
theorem procPair_noop {W : Type} [DecidableEq W] (wc : WContract W)
    (r1 r2 : Room2D W) (tol : ℚ) (rwc : Bool)
    (h : matchedSidesSurface tol r1 r2) :
    procPair wc r1 r2 tol rwc = .ok (r1, r2, []) := by
  unfold procPair
  split
  · unfold jLoop
    refine foldlM_ok_const _ _ _ (fun j hj => ?_)
    simp only [List.mem_range] at hj
    rw [findMatchK_eq_none r2 _ tol
      (fun k hk => h j hj k hk)]
  · rfl

/-- Processing one room against later rooms is the identity when every
pair satisfies `matchedSidesSurface`. -/
theorem procOne_noop {W : Type} [DecidableEq W] (wc : WContract W)
    (r1 : Room2D W) (rest : List (Room2D W)) (tol : ℚ) (rwc : Bool)
    (h : ∀ r2 ∈ rest, matchedSidesSurface tol r1 r2) :
    procOne wc r1 rest tol rwc = .ok (r1, rest, []) := by
  induction rest with
  | nil => rfl
  | cons r2 rs ih =>
    unfold procOne
    rw [procPair_noop wc r1 r2 tol rwc (h r2 (by simp))]
    rw [exceptBindOk]
    dsimp only
    rw [ih (fun x hx => h x (by simp [hx])), exceptBindOk]
    rfl

/-- The core pair loops fire no match on a `Pairwise`-saturated state. -/
theorem solveCoreFuel_noop {W : Type} [DecidableEq W] (wc : WContract W)
    (tol : ℚ) (rwc : Bool) :
    ∀ (rooms : List (Room2D W)) (fuel : Nat),
      rooms.Pairwise (matchedSidesSurface tol) →
      solveCoreFuel wc fuel rooms tol rwc = .ok (rooms, []) := by
  intro rooms
  induction rooms with
  | nil => intro fuel _; cases fuel <;> rfl
  | cons r rs ih =>
    intro fuel hp
    cases fuel with
    | zero => rfl
    | succ n =>
      rw [List.pairwise_cons] at hp
      unfold solveCoreFuel
      rw [procOne_noop wc r rs tol rwc hp.1]
      rw [exceptBindOk]
      dsimp only
      rw [ih n hp.2, exceptBindOk]
      rfl

/-- C3 (amended): the later room's side of a candidate pair is excluded
from rematching once it carries a `Surface` condition, so a rerun of
`solve_adjacency` changes nothing on a state in which every geometric
match is already `Surface` on the later room's side (and duplicate-vertex
removal is a no-op); in general, however, the earlier room's side is not
excluded, and a repeated run may reassign an already-matched segment to a
coincident segment left unmatched by the first run. -/
theorem solve_adjacency_resolved_state_fixed {W : Type} [DecidableEq W]
    (wc : WContract W) (rooms : List (Room2D W)) (tol : ℚ) (rwc : Bool)
    (hrdv : ∀ r ∈ rooms, r.removeDuplicateVertices tol = .ok (r, []))
    (hsur : rooms.Pairwise (matchedSidesSurface tol)) :
    solveAdjacency wc rooms tol rwc = .ok (rooms, []) := by
  unfold solveAdjacency
  have hid : ∀ r ∈ rooms, rdvSafe tol r = id r := by
    intro r hr
    unfold rdvSafe
    rw [hrdv r hr]
    rfl
  rw [List.map_congr_left hid, List.map_id]
  unfold solveCore
  exact solveCoreFuel_noop wc tol rwc rooms rooms.length hsur

/-- Fully-resolved two-room state: the shared wall between the two unit
squares already carries mutual `Surface` conditions. -/
def fixedA : Room2D Unit :=
  { mkRoom "A" [⟨0, 0⟩, ⟨1, 0⟩, ⟨1, 1⟩, ⟨0, 1⟩] with
      boundaryConditions :=
        [surfaceRef "B" 2, .outdoors, .outdoors, .outdoors] }

/-- The matching resolved lower room. -/
def fixedB : Room2D Unit :=
  { mkRoom "B" [⟨0, -1⟩, ⟨1, -1⟩, ⟨1, 0⟩, ⟨0, 0⟩] with
      boundaryConditions :=
        [.outdoors, .outdoors, surfaceRef "A" 0, .outdoors] }

/-- Witness for `solve_adjacency_resolved_state_fixed`: rerunning
`solve_adjacency` on the fully-resolved two-room state returns it
unchanged with no new adjacency pairs. -/
theorem solve_adjacency_resolved_state_fixed_witness :
    solveAdjacency unitWC [fixedA, fixedB] (1 / 100) true =
      .ok ([fixedA, fixedB], []) :=
  solve_adjacency_resolved_state_fixed unitWC [fixedA, fixedB] (1 / 100)
    true
    (by
      intro r hr
      rcases List.mem_cons.mp hr with rfl | hr
      · with_unfolding_all rfl
      · rcases List.mem_cons.mp hr with rfl | hr
        · with_unfolding_all rfl
        · cases hr)
    (by with_unfolding_all decide)

/-! ## C4 / C10 — window-parameter conflict resolution -/

/-- C4: when the window parameters of a matched segment pair differ,
`set_adjacency` with conflict resolution enabled leaves both segments
carrying the parameter whose window area (computed with the smaller of
the two floor-to-ceiling heights from the segment) is strictly larger;
the winning parameter is flipped by the receiving segment's length when
it is asymmetric, and the winner's own segment keeps it unchanged. -/
theorem set_adjacency_resolves_to_larger_window {W : Type} [DecidableEq W]
    (wc : WContract W) (r1 r2 : Room2D W) (i j : Nat)
    (r1' r2' : Room2D W)
    (hi : i < r1.windowParameters.length)
    (hj : j < r2.windowParameters.length)
    (hne : r1.winAt i ≠ r2.winAt j)
    (h : Room2D.setAdjacency wc r1 r2 i j true = .ok (r1', r2')) :
    (areaOpt wc (r1.winAt i) (r1.floorSegments2.getD i defaultSeg)
        (min r1.floorToCeilingHeight r2.floorToCeilingHeight) >
      areaOpt wc (r2.winAt j) (r2.floorSegments2.getD j defaultSeg)
        (min r1.floorToCeilingHeight r2.floorToCeilingHeight) →
      r1'.winAt i = r1.winAt i ∧
      r2'.winAt j = flipIfAsym wc (r1.winAt i)
        (segLength (r2.floorSegments2.getD j defaultSeg))) ∧
    (areaOpt wc (r2.winAt j) (r2.floorSegments2.getD j defaultSeg)
        (min r1.floorToCeilingHeight r2.floorToCeilingHeight) >
      areaOpt wc (r1.winAt i) (r1.floorSegments2.getD i defaultSeg)
        (min r1.floorToCeilingHeight r2.floorToCeilingHeight) →
      r2'.winAt j = r2.winAt j ∧
      r1'.winAt i = flipIfAsym wc (r2.winAt j)
        (segLength (r1.floorSegments2.getD i defaultSeg))) := by
  have hstart : (r1.winAt i).isSome || (r2.winAt j).isSome := by
    cases h1 : r1.winAt i with
    | some w => simp
    | none =>
      cases h2 : r2.winAt j with
      | some w => simp
      | none => exact absurd (h1.trans h2.symm) hne
  unfold Room2D.setAdjacency at h
  dsimp only at h
  rw [if_pos hstart, if_pos (by simp [hne]), if_pos rfl] at h
  by_cases hgt :
      areaOpt wc (r1.winAt i) (r1.floorSegments2.getD i defaultSeg)
        (min r1.floorToCeilingHeight r2.floorToCeilingHeight) >
      areaOpt wc (r2.winAt j) (r2.floorSegments2.getD j defaultSeg)
        (min r1.floorToCeilingHeight r2.floorToCeilingHeight)
  · rw [if_pos hgt] at h
    simp only [Except.ok.injEq, Prod.mk.injEq] at h
    obtain ⟨h1, h2⟩ := h
    subst h1; subst h2
    refine ⟨fun _ => ⟨rfl, ?_⟩, fun hlt => absurd hgt (lt_asymm hlt)⟩
    exact getD_set_self _ _ _ _ hj
  · rw [if_neg hgt] at h
    simp only [Except.ok.injEq, Prod.mk.injEq] at h
    obtain ⟨h1, h2⟩ := h
    subst h1; subst h2
    refine ⟨fun hgt2 => absurd hgt2 hgt, fun _ => ⟨rfl, ?_⟩⟩
    exact getD_set_self _ _ _ _ hi

/-- Mock window parameter with area 5 m². -/
def mock5 : MockWin := ⟨5, false, 0⟩

/-- Mock window parameter with area 8 m². -/
def mock8 : MockWin := ⟨8, false, 0⟩

/-- Generic windowless room over any window-parameter type. -/
def mkRoomW (W : Type) (id : String) (b : List Point2) : Room2D W :=
  { identifier := id, boundary := b, holes := [], floorHeight := 0,
    floorToCeilingHeight := 3, segmentCountF := b.length,
    boundaryConditions := List.replicate b.length .outdoors,
    windowParameters := List.replicate b.length none,
    shadingParameters := List.replicate b.length none,
    airBoundaries := some (List.replicate b.length false),
    isGroundContact := false, isTopExposed := false }

/-- Upper room carrying the 5 m² window specification on its lower wall. -/
def winRoom1 : Room2D MockWin :=
  { mkRoomW MockWin "R1" [⟨0, 0⟩, ⟨1, 0⟩, ⟨1, 1⟩, ⟨0, 1⟩] with
      windowParameters := [some mock5, none, none, none] }

/-- Lower room carrying the 8 m² window specification on its upper wall. -/
def winRoom2 : Room2D MockWin :=
  { mkRoomW MockWin "R2" [⟨0, -1⟩, ⟨1, -1⟩, ⟨1, 0⟩, ⟨0, 0⟩] with
      windowParameters := [none, none, some mock8, none] }

/-- Fallback `MockWin` room for total reads in closed statements. -/
def noWRoom : Room2D MockWin := mkRoomW MockWin "" []

/-- The rooms after resolving the 5 m² / 8 m² conflict. -/
def winResolved : Room2D MockWin × Room2D MockWin :=
  (Room2D.setAdjacency mockWC winRoom1 winRoom2 0 2 true).toOption.getD
    (noWRoom, noWRoom)

/-- Witness for `set_adjacency_resolves_to_larger_window`: with window
areas 5 m² and 8 m² on the matched pair, both segments end up with the
8 m² specification. -/
theorem set_adjacency_resolves_to_larger_window_witness :
    winResolved.2.winAt 2 = some mock8 ∧
    winResolved.1.winAt 0 = some mock8 :=
  (set_adjacency_resolves_to_larger_window mockWC winRoom1 winRoom2 0 2
      winResolved.1 winResolved.2 (by decide) (by decide) (by decide)
      (by with_unfolding_all rfl)).2
    (by with_unfolding_all decide)

/-- C10: the implicit tie-break.  When both non-null window parameters of
a matched pair compute to exactly equal areas, the strict `a1 > a2`
comparison fails and the `else` branch runs: the second room's parameter
is assigned onto the calling room's segment (flipped by that segment's
length when asymmetric) while the second room's segment keeps its own
parameter unchanged. -/
theorem set_adjacency_equal_area_tiebreak {W : Type} [DecidableEq W]
    (wc : WContract W) (r1 r2 : Room2D W) (i j : Nat) (w1 w2 : W)
    (r1' r2' : Room2D W)
    (hi : i < r1.windowParameters.length)
    (hw1 : r1.winAt i = some w1) (hw2 : r2.winAt j = some w2)
    (hcond : w1 ≠ w2 ∨ wc.isAsymmetric w1 = true)
    (heq : areaOpt wc (r1.winAt i) (r1.floorSegments2.getD i defaultSeg)
        (min r1.floorToCeilingHeight r2.floorToCeilingHeight) =
      areaOpt wc (r2.winAt j) (r2.floorSegments2.getD j defaultSeg)
        (min r1.floorToCeilingHeight r2.floorToCeilingHeight))
    (h : Room2D.setAdjacency wc r1 r2 i j true = .ok (r1', r2')) :
    r1'.winAt i = flipIfAsym wc (some w2)
      (segLength (r1.floorSegments2.getD i defaultSeg)) ∧
    r2'.winAt j = some w2 := by
  have hstart : (r1.winAt i).isSome || (r2.winAt j).isSome := by
    simp [hw1]
  have hc2 : decide (r1.winAt i ≠ r2.winAt j) ||
      ((r1.winAt i).map wc.isAsymmetric).getD false := by
    rcases hcond with hne | hasym
    · simp [hw1, hw2, hne]
    · simp [hw1, hasym]
  unfold Room2D.setAdjacency at h
  dsimp only at h
  rw [if_pos hstart, if_pos hc2, if_pos rfl, if_neg (by rw [heq]; exact lt_irrefl _)] at h
  simp only [Except.ok.injEq, Prod.mk.injEq] at h
  obtain ⟨h1, h2⟩ := h
  subst h1; subst h2
  constructor
  · rw [← hw2]
    exact getD_set_self _ _ _ _ hi
  · exact hw2

/-- Two distinct window parameters with equal 6 m² areas. -/
def mock6a : MockWin := ⟨6, false, 0⟩

/-- The second 6 m² parameter, distinguishable from the first. -/
def mock6b : MockWin := ⟨6, false, 1⟩

/-- Upper room carrying `mock6a`. -/
def tieRoom1 : Room2D MockWin :=
  { mkRoomW MockWin "T1" [⟨0, 0⟩, ⟨1, 0⟩, ⟨1, 1⟩, ⟨0, 1⟩] with
      windowParameters := [some mock6a, none, none, none] }

/-- Lower room carrying `mock6b`. -/
def tieRoom2 : Room2D MockWin :=
  { mkRoomW MockWin "T2" [⟨0, -1⟩, ⟨1, -1⟩, ⟨1, 0⟩, ⟨0, 0⟩] with
      windowParameters := [none, none, some mock6b, none] }

/-- The rooms after the equal-area tie-break. -/
def tieResolved : Room2D MockWin × Room2D MockWin :=
  (Room2D.setAdjacency mockWC tieRoom1 tieRoom2 0 2 true).toOption.getD
    (noWRoom, noWRoom)

/-- Witness for `set_adjacency_equal_area_tiebreak`: with equal 6 m²
areas the calling room's segment receives the second room's parameter
and the second room's segment is unchanged. -/
theorem set_adjacency_equal_area_tiebreak_witness :
    tieResolved.1.winAt 0 = some mock6b ∧
    tieResolved.2.winAt 2 = some mock6b :=
  set_adjacency_equal_area_tiebreak mockWC tieRoom1 tieRoom2 0 2
    mock6a mock6b tieResolved.1 tieResolved.2 (by decide) rfl rfl
    (Or.inl (by decide)) (by with_unfolding_all decide)
    (by with_unfolding_all rfl)

/-! ## C2 — the four per-segment arrays stay in lockstep -/

/-- The parallel-array invariant of a `Room2D`: the four per-segment
arrays all have the length of the cached segment count, which equals the
geometric segment count of the floor polygon (outer plus hole rings). -/
def segArraysAligned {W : Type} (r : Room2D W) : Prop :=
  r.boundaryConditions.length = r.geomSegCount ∧
  r.windowParameters.length = r.geomSegCount ∧
  r.shadingParameters.length = r.geomSegCount ∧
  r.airBoundariesOrDefault.length = r.geomSegCount ∧
  r.segmentCountF = r.geomSegCount

/-- `ringSegs2` has one segment per vertex. -/
theorem ringSegs2_length (pts : List Point2) :
    (ringSegs2 pts).length = pts.length := by
  cases pts with
  | nil => rfl
  | cons p ps =>
    simp [ringSegs2, List.length_zip]

/-- The reversed-take-plus-drop decomposition preserves length. -/
theorem take_reverse_append_drop_length {α : Type} (l : List α) (k : Nat) :
    ((l.take k).reverse ++ l.drop k).length = l.length := by
  simp [List.length_append, List.length_take, List.length_drop]
  omega

/-- `_flip_wall_assigned_objects` preserves the lengths of all three
wall-assigned lists, provided each list covers the boundary. -/
theorem flipWallAssignedObjects_lengths {W : Type} (wc : WContract W)
    (b : List Point2) (bcs : List BoundaryCondition)
    (wins : List (Option W)) (shds : List (Option Nat))
    (hb : b.length ≤ wins.length) :
    (flipWallAssignedObjects wc b bcs wins shds).1.length = bcs.length ∧
    (flipWallAssignedObjects wc b bcs wins shds).2.1.length = wins.length ∧
    (flipWallAssignedObjects wc b bcs wins shds).2.2.length = shds.length := by
  unfold flipWallAssignedObjects
  refine ⟨?_, ?_, ?_⟩ <;>
    simp [List.length_append, List.length_take, List.length_drop,
      List.length_zip, ringSegs2_length] <;> omega

/-- The hole pass of `remove_duplicate_vertices` keeps the four arrays in
lockstep with the total vertex count of the kept hole rings. -/
theorem rdvHoles_lengths {W : Type} (bcs : List BoundaryCondition)
    (wins : List (Option W)) (shds : List (Option Nat)) (exab : List Bool)
    (tol : ℚ) :
    ∀ (hs : List (List Point2)) (segc : Nat),
      (Room2D.rdvHoles bcs wins shds exab tol hs segc).2.1.length =
        ((Room2D.rdvHoles bcs wins shds exab tol hs segc).1.map
          List.length).sum ∧
      (Room2D.rdvHoles bcs wins shds exab tol hs segc).2.2.1.length =
        (Room2D.rdvHoles bcs wins shds exab tol hs segc).2.1.length ∧
      (Room2D.rdvHoles bcs wins shds exab tol hs segc).2.2.2.1.length =
        (Room2D.rdvHoles bcs wins shds exab tol hs segc).2.1.length ∧
      (Room2D.rdvHoles bcs wins shds exab tol hs segc).2.2.2.2.1.length =
        (Room2D.rdvHoles bcs wins shds exab tol hs segc).2.1.length := by
  intro hs
  induction hs with
  | nil => intro segc; simp [Room2D.rdvHoles]
  | cons h rest ih =>
    intro segc
    obtain ⟨i1, i2, i3, i4⟩ := ih (segc + (rotated h).length)
    simp only [Room2D.rdvHoles, List.map_cons, List.sum_cons,
      List.length_append, List.length_map] at i1 i2 i3 i4 ⊢
    refine ⟨?_, ?_, ?_, ?_⟩ <;> omega

/-- Inversion of a successful `Except` bind. -/
theorem exceptBindOkInv {ε α β : Type} {m : Except ε α}
    {f : α → Except ε β} {c : β} (h : (m >>= f) = .ok c) :
    ∃ a, m = .ok a ∧ f a = .ok c := by
  cases m with
  | error e => cases h
  | ok a => exact ⟨a, rfl, h⟩

/-- Inversion of `_check_wall_assigned_object`: success returns the input
list unchanged, and certifies that it has `len(self)` entries. -/
theorem checkWallAssigned_ok {W α : Type} {r : Room2D W} {v v' : List α}
    (h : r.checkWallAssigned v = .ok v') :
    v' = v ∧ v.length = r.len := by
  unfold Room2D.checkWallAssigned at h
  split_ifs at h with hl
  · cases h; exact ⟨rfl, hl⟩

/-- Success of `initialBoundaryConditions` yields a list of `len(self)`
entries. -/
theorem initialBoundaryConditions_ok {W : Type} {r : Room2D W}
    {defaultBc : BoundaryCondition} {obcs : Option (List BoundaryCondition)}
    {v : List BoundaryCondition}
    (h : initialBoundaryConditions r defaultBc obcs = .ok v) :
    v.length = r.len := by
  unfold initialBoundaryConditions at h
  cases obcs with
  | none => cases h; exact List.length_replicate _ _
  | some w =>
    obtain ⟨rfl, hlen⟩ := checkWallAssigned_ok h
    exact hlen

/-- The fields of a room that the per-segment setters never touch. -/
def sameGeometryFields {W : Type} (r r' : Room2D W) : Prop :=
  r'.boundary = r.boundary ∧ r'.holes = r.holes ∧
  r'.segmentCountF = r.segmentCountF

/-- Success of the `boundary_conditions` setter: the new list has
`len(self)` entries and every other field is unchanged. -/
theorem setBoundaryConditions_ok {W : Type} {r r' : Room2D W}
    {v : List BoundaryCondition}
    (h : r.setBoundaryConditions v = .ok r') :
    r'.boundaryConditions.length = r.len ∧ sameGeometryFields r r' ∧
    r'.windowParameters = r.windowParameters ∧
    r'.shadingParameters = r.shadingParameters ∧
    r'.airBoundaries = r.airBoundaries := by
  unfold Room2D.setBoundaryConditions at h
  obtain ⟨a, ha, h2⟩ := exceptBindOkInv h
  obtain ⟨rfl, hlen⟩ := checkWallAssigned_ok ha
  split_ifs at h2
  cases h2
  exact ⟨hlen, ⟨rfl, rfl, rfl⟩, rfl, rfl, rfl⟩

/-- Success of the `window_parameters` setter. -/
theorem setWindowParameters_ok {W : Type} {r r' : Room2D W}
    {v : Option (List (Option W))}
    (h : r.setWindowParameters v = .ok r') :
    r'.windowParameters.length = r.len ∧ sameGeometryFields r r' ∧
    r'.boundaryConditions = r.boundaryConditions ∧
    r'.shadingParameters = r.shadingParameters ∧
    r'.airBoundaries = r.airBoundaries := by
  unfold Room2D.setWindowParameters at h
  cases v with
  | none =>
    cases h
    exact ⟨List.length_replicate _ _, ⟨rfl, rfl, rfl⟩, rfl, rfl, rfl⟩
  | some v =>
    obtain ⟨a, ha, h2⟩ := exceptBindOkInv h
    obtain ⟨rfl, hlen⟩ := checkWallAssigned_ok ha
    split_ifs at h2
    cases h2
    exact ⟨hlen, ⟨rfl, rfl, rfl⟩, rfl, rfl, rfl⟩

/-- Success of the `shading_parameters` setter. -/
theorem setShadingParameters_ok {W : Type} {r r' : Room2D W}
    {v : Option (List (Option Nat))}
    (h : r.setShadingParameters v = .ok r') :
    r'.shadingParameters.length = r.len ∧ sameGeometryFields r r' ∧
    r'.boundaryConditions = r.boundaryConditions ∧
    r'.windowParameters = r.windowParameters ∧
    r'.airBoundaries = r.airBoundaries := by
  unfold Room2D.setShadingParameters at h
  cases v with
  | none =>
    cases h
    exact ⟨List.length_replicate _ _, ⟨rfl, rfl, rfl⟩, rfl, rfl, rfl⟩
  | some v =>
    obtain ⟨a, ha, h2⟩ := exceptBindOkInv h
    obtain ⟨rfl, hlen⟩ := checkWallAssigned_ok ha
    cases h2
    exact ⟨hlen, ⟨rfl, rfl, rfl⟩, rfl, rfl, rfl⟩

/-- Success of the `air_boundaries` setter. -/
theorem setAirBoundaries_ok {W : Type} {r r' : Room2D W}
    {v : Option (List Bool)}
    (h : r.setAirBoundaries v = .ok r') :
    r'.airBoundariesOrDefault.length = r.len ∧ sameGeometryFields r r' ∧
    r'.boundaryConditions = r.boundaryConditions ∧
    r'.windowParameters = r.windowParameters ∧
    r'.shadingParameters = r.shadingParameters := by
  unfold Room2D.setAirBoundaries at h
  cases v with
  | none =>
    cases h
    exact ⟨List.length_replicate _ _, ⟨rfl, rfl, rfl⟩, rfl, rfl, rfl⟩
  | some v =>
    obtain ⟨a, ha, h2⟩ := exceptBindOkInv h
    obtain ⟨rfl, hlen⟩ := checkWallAssigned_ok ha
    split_ifs at h2
    cases h2
    refine ⟨?_, ⟨rfl, rfl, rfl⟩, rfl, rfl, rfl⟩
    simpa [Room2D.airBoundariesOrDefault] using hlen

/-- Construction establishes the parallel-array invariant. -/
theorem room2DInit_aligned {W : Type} (wc : WContract W)
    (id : String) (b : List Point2) (hs : List (List Point2))
    (fh ftc : ℚ) (obcs : Option (List BoundaryCondition))
    (owins : Option (List (Option W)))
    (oshds : Option (List (Option Nat))) (g t : Bool) (r : Room2D W)
    (h : room2DInit wc id b hs fh ftc obcs owins oshds g t = .ok r) :
    segArraysAligned r := by
  unfold room2DInit at h
  dsimp only at h
  by_cases hftc : ftc ≤ 0
  · rw [if_pos hftc] at h; cases h
  rw [if_neg hftc] at h
  obtain ⟨bcs, hbcs, hA⟩ := exceptBindOkInv h
  clear h
  set b' := if isClockwise b then b.reverse else b with hb'
  set hs' := if isClockwise b then hs.map List.reverse else hs with hhs'
  set n := b'.length + (hs'.map List.length).sum with hn
  -- the boundary-condition list covers the segments
  have hbl : bcs.length = n := initialBoundaryConditions_ok hbcs
  clear hbcs
  obtain ⟨r2, hwin, hB⟩ := exceptBindOkInv hA
  clear hA
  obtain ⟨hwl, ⟨hwb, hwh, hwn⟩, hwbc, hwsh, hwab⟩ :=
    setWindowParameters_ok hwin
  clear hwin
  obtain ⟨r3, hshd, hC⟩ := exceptBindOkInv hB
  clear hB
  obtain ⟨hsl, ⟨hsb, hsh, hsn⟩, hsbc, hswin, hsab⟩ :=
    setShadingParameters_ok hshd
  clear hshd
  -- collect the fields of the room after both setters
  simp only at hwl hwb hwh hwn hwbc hwsh hwab
  have h3b : r3.boundary = b' := by rw [hsb, hwb]
  have h3h : r3.holes = hs' := by rw [hsh, hwh]
  have h3n : r3.segmentCountF = n := by rw [hsn, hwn]
  have h3bc : r3.boundaryConditions = bcs := by rw [hsbc, hwbc]
  have h3w : r3.windowParameters.length = n := by rw [hswin, hwl]; rfl
  have h3s : r3.shadingParameters.length = n := by
    rw [hsl, Room2D.len, hwn]
  have h3ab : r3.airBoundaries = none := by rw [hsab, hwab]
  have h3g : r3.geomSegCount = n := by
    rw [Room2D.geomSegCount, h3b, h3h, hn]
  have hble : b.length ≤ r3.windowParameters.length := by
    rw [h3w, hn]
    have : b'.length = b.length := by
      rw [hb']; split_ifs <;> simp
    omega
  by_cases hfl : isClockwise b
  · rw [if_pos hfl] at hC
    cases hC
    obtain ⟨f1, f2, f3⟩ := flipWallAssignedObjects_lengths wc b
      r3.boundaryConditions r3.windowParameters r3.shadingParameters hble
    refine ⟨?_, ?_, ?_, ?_, ?_⟩
    · dsimp only [Room2D.geomSegCount]
      rw [f1, h3bc, hbl, h3b, h3h]
    · dsimp only [Room2D.geomSegCount]
      rw [f2, h3w, h3b, h3h]
    · dsimp only [Room2D.geomSegCount]
      rw [f3, h3s, h3b, h3h]
    · simp only [Room2D.airBoundariesOrDefault, Room2D.geomSegCount,
        Room2D.len, h3ab, h3b, h3h, h3n, Option.getD_none,
        List.length_replicate]
    · dsimp only [Room2D.geomSegCount]
      rw [h3n, h3b, h3h]
  · rw [if_neg hfl] at hC
    cases hC
    refine ⟨?_, ?_, ?_, ?_, ?_⟩
    · rw [h3bc, hbl, h3g]
    · rw [h3w, h3g]
    · rw [h3s, h3g]
    · simp [Room2D.airBoundariesOrDefault, Room2D.len, h3ab, h3n, h3g]
    · rw [h3n, h3g]
/-- `remove_duplicate_vertices` rebuilds the arrays in lockstep with the
kept vertices, so it re-establishes the invariant unconditionally. -/
theorem removeDuplicateVertices_aligned {W : Type} {r r' : Room2D W}
    {tol : ℚ} {rem : List Nat}
    (h : r.removeDuplicateVertices tol = .ok (r', rem)) :
    segArraysAligned r' := by
  unfold Room2D.removeDuplicateVertices at h
  dsimp only at h
  by_cases hemp : r.holes.isEmpty
  · rw [if_pos hemp] at h
    split_ifs at h
    simp only [Except.ok.injEq, Prod.mk.injEq] at h
    obtain ⟨h1, h2⟩ := h
    subst h1
    refine ⟨?_, ?_, ?_, ?_, ?_⟩ <;>
      simp [Room2D.geomSegCount, Room2D.airBoundariesOrDefault]
  · rw [if_neg hemp] at h
    split_ifs at h
    simp only [Except.ok.injEq, Prod.mk.injEq] at h
    obtain ⟨h1, h2⟩ := h
    subst h1
    obtain ⟨l1, l2, l3, l4⟩ := rdvHoles_lengths r.boundaryConditions
      r.windowParameters r.shadingParameters r.airBoundariesOrDefault tol
      r.holes (rotated r.boundary).length
    simp only [Room2D.airBoundariesOrDefault] at l1 l2 l3 l4
    refine ⟨?_, ?_, ?_, ?_, ?_⟩ <;>
      simp [Room2D.geomSegCount, Room2D.airBoundariesOrDefault,
        l1, l2, l3, l4]

/-- Length of the materialised air-boundary list is stable under setters
that do not touch the stored value or the segment count. -/
theorem airDefault_length_congr {W : Type} {r r' : Room2D W}
    (hab : r'.airBoundaries = r.airBoundaries)
    (hn : r'.segmentCountF = r.segmentCountF) :
    r'.airBoundariesOrDefault.length = r.airBoundariesOrDefault.length := by
  cases hcase : r.airBoundaries <;>
    simp [Room2D.airBoundariesOrDefault, Room2D.len, hab, hcase, hn]

/-- Geometry fields determine the geometric segment count. -/
theorem geomSegCount_congr {W : Type} {r r' : Room2D W}
    (hg : sameGeometryFields r r') :
    r'.geomSegCount = r.geomSegCount := by
  rw [Room2D.geomSegCount, hg.1, hg.2.1, Room2D.geomSegCount]

/-- C2: for every `Room2D`, the four per-segment arrays
(`boundary_conditions`, `window_parameters`, `shading_parameters`,
`air_boundaries`) all have the length of the floor polygon's segment
count — after construction, after each of the four wall-assigned
setters, and after the geometry edit `remove_duplicate_vertices`. -/
theorem room2d_parallel_arrays_in_lockstep {W : Type} (wc : WContract W) :
    (∀ id b hs fh ftc obcs owins oshds g t (r : Room2D W),
      room2DInit wc id b hs fh ftc obcs owins oshds g t = .ok r →
      segArraysAligned r) ∧
    (∀ (r : Room2D W) v r', segArraysAligned r →
      r.setBoundaryConditions v = .ok r' → segArraysAligned r') ∧
    (∀ (r : Room2D W) v r', segArraysAligned r →
      r.setWindowParameters v = .ok r' → segArraysAligned r') ∧
    (∀ (r : Room2D W) v r', segArraysAligned r →
      r.setShadingParameters v = .ok r' → segArraysAligned r') ∧
    (∀ (r : Room2D W) v r', segArraysAligned r →
      r.setAirBoundaries v = .ok r' → segArraysAligned r') ∧
    (∀ (r r' : Room2D W) tol rem,
      r.removeDuplicateVertices tol = .ok (r', rem) →
      segArraysAligned r') := by
  refine ⟨?_, ?_, ?_, ?_, ?_, ?_⟩
  · exact fun id b hs fh ftc obcs owins oshds g t r h =>
      room2DInit_aligned wc id b hs fh ftc obcs owins oshds g t r h
  · intro r v r' hal h
    obtain ⟨hlen, hgf, hw, hsd, hab⟩ := setBoundaryConditions_ok h
    obtain ⟨a1, a2, a3, a4, a5⟩ := hal
    have hg := geomSegCount_congr hgf
    refine ⟨?_, ?_, ?_, ?_, ?_⟩
    · rw [hlen, Room2D.len, a5, hg]
    · rw [hw, a2]; exact hg.symm
    · rw [hsd, a3]; exact hg.symm
    · rw [airDefault_length_congr hab hgf.2.2, a4]; exact hg.symm
    · rw [hgf.2.2, a5]; exact hg.symm
  · intro r v r' hal h
    obtain ⟨hlen, hgf, hbc, hsd, hab⟩ := setWindowParameters_ok h
    obtain ⟨a1, a2, a3, a4, a5⟩ := hal
    have hg := geomSegCount_congr hgf
    refine ⟨?_, ?_, ?_, ?_, ?_⟩
    · rw [hbc, a1]; exact hg.symm
    · rw [hlen, Room2D.len, a5, hg]
    · rw [hsd, a3]; exact hg.symm
    · rw [airDefault_length_congr hab hgf.2.2, a4]; exact hg.symm
    · rw [hgf.2.2, a5]; exact hg.symm
  · intro r v r' hal h
    obtain ⟨hlen, hgf, hbc, hwp, hab⟩ := setShadingParameters_ok h
    obtain ⟨a1, a2, a3, a4, a5⟩ := hal
    have hg := geomSegCount_congr hgf
    refine ⟨?_, ?_, ?_, ?_, ?_⟩
    · rw [hbc, a1]; exact hg.symm
    · rw [hwp, a2]; exact hg.symm
    · rw [hlen, Room2D.len, a5, hg]
    · rw [airDefault_length_congr hab hgf.2.2, a4]; exact hg.symm
    · rw [hgf.2.2, a5]; exact hg.symm
  · intro r v r' hal h
    obtain ⟨hlen, hgf, hbc, hwp, hsd⟩ := setAirBoundaries_ok h
    obtain ⟨a1, a2, a3, a4, a5⟩ := hal
    have hg := geomSegCount_congr hgf
    refine ⟨?_, ?_, ?_, ?_, ?_⟩
    · rw [hbc, a1]; exact hg.symm
    · rw [hwp, a2]; exact hg.symm
    · rw [hsd, a3]; exact hg.symm
    · rw [hlen, Room2D.len, a5, hg]
    · rw [hgf.2.2, a5]; exact hg.symm
  · exact fun r r' tol rem h => removeDuplicateVertices_aligned h

/-- A freshly constructed 4 m × 3 m room. -/
def alignedInitRoom : Room2D Unit :=
  (room2DInit unitWC "W" [⟨0, 0⟩, ⟨4, 0⟩, ⟨4, 3⟩, ⟨0, 3⟩] [] 0 3
      none none none false false).toOption.getD noRoom

/-- Witness for `room2d_parallel_arrays_in_lockstep` at a concrete
construction. -/
theorem room2d_parallel_arrays_in_lockstep_witness :
    segArraysAligned alignedInitRoom :=
  (room2d_parallel_arrays_in_lockstep unitWC).1 "W"
    [⟨0, 0⟩, ⟨4, 0⟩, ⟨4, 3⟩, ⟨0, 3⟩] [] 0 3 none none none false false
    alignedInitRoom (by with_unfolding_all rfl)

/-! ## C8 — default boundary conditions at construction -/

/-- The unit square at heights chosen so that the floor is below the
ground plane while the ceiling is above it. -/
def straddleRoom : Room2D Unit :=
  (room2DInit unitWC "C8" [⟨0, 0⟩, ⟨1, 0⟩, ⟨1, 1⟩, ⟨0, 1⟩] [] (-1) 3
      none none none false false).toOption.getD noRoom

/-- C8 (counterexample): the spec claims the default is `Ground` whenever
the floor is below the global ground plane.  The constructor tests the
*ceiling* height: with `floor_height = -1` and `floor_to_ceiling = 3` the
floor is below ground yet every segment defaults to `Outdoors`. -/
theorem default_bcs_floor_below_ground_cex :
    straddleRoom.floorHeight = -1 ∧ straddleRoom.floorHeight < 0 ∧
    straddleRoom.boundaryConditions =
      List.replicate 4 BoundaryCondition.outdoors := by
  with_unfolding_all decide

/-- C8 (amended): a `Room2D` constructed without an explicit
boundary-condition list defaults every segment to `Outdoors`, unless the
room's *ceiling* height (`floor_height + floor_to_ceiling_height`) is at
or below the global ground plane, in which case every segment defaults
to `Ground`. -/
theorem room2DInit_default_bcs {W : Type} (wc : WContract W)
    (id : String) (b : List Point2) (hs : List (List Point2))
    (fh ftc : ℚ) (owins : Option (List (Option W)))
    (oshds : Option (List (Option Nat))) (g t : Bool) (r : Room2D W)
    (h : room2DInit wc id b hs fh ftc none owins oshds g t = .ok r) :
    ∀ bc ∈ r.boundaryConditions,
      bc = if 0 < fh + ftc then .outdoors else .ground := by
  unfold room2DInit at h
  dsimp only at h
  by_cases hftc : ftc ≤ 0
  · rw [if_pos hftc] at h; cases h
  rw [if_neg hftc] at h
  obtain ⟨bcs, hbcs, hA⟩ := exceptBindOkInv h
  clear h
  -- the default list is a replicate of the height-dependent condition
  have hrep : ∀ bc ∈ bcs,
      bc = if 0 < fh + ftc then .outdoors else .ground := by
    unfold initialBoundaryConditions at hbcs
    cases hbcs
    intro bc hbc
    exact (List.eq_of_mem_replicate hbc)
  obtain ⟨r2, hwin, hB⟩ := exceptBindOkInv hA
  clear hA
  obtain ⟨hwl, hgw, hwbc, hwsh, hwab⟩ := setWindowParameters_ok hwin
  obtain ⟨r3, hshd, hC⟩ := exceptBindOkInv hB
  clear hB
  obtain ⟨hsl, hgs, hsbc, hswin, hsab⟩ := setShadingParameters_ok hshd
  simp only at hwbc
  have h3bc : r3.boundaryConditions = bcs := by rw [hsbc, hwbc]
  by_cases hfl : isClockwise b
  · rw [if_pos hfl] at hC
    cases hC
    intro bc hbc
    simp only [flipWallAssignedObjects, List.mem_append,
      List.mem_reverse] at hbc
    rcases hbc with hbc | hbc
    · exact hrep bc (h3bc ▸ List.mem_of_mem_take hbc)
    · exact hrep bc (h3bc ▸ List.mem_of_mem_drop hbc)
  · rw [if_neg hfl] at hC
    cases hC
    intro bc hbc
    exact hrep bc (h3bc ▸ hbc)

/-- A room fully below the ground plane. -/
def belowRoom : Room2D Unit :=
  (room2DInit unitWC "G" [⟨0, 0⟩, ⟨1, 0⟩, ⟨1, 1⟩, ⟨0, 1⟩] [] (-10) 3
      none none none false false).toOption.getD noRoom

/-- Witness for `room2DInit_default_bcs`: a room whose ceiling sits at
`-7` gets `Ground` on its first segment. -/
theorem room2DInit_default_bcs_witness :
    belowRoom.bcAt 0 = .ground := by
  have hm : belowRoom.bcAt 0 ∈ belowRoom.boundaryConditions := by
    with_unfolding_all decide
  have hd := room2DInit_default_bcs unitWC "G"
    [⟨0, 0⟩, ⟨1, 0⟩, ⟨1, 1⟩, ⟨0, 1⟩] [] (-10) 3 none none false false
    belowRoom (by with_unfolding_all rfl) (belowRoom.bcAt 0) hm
  rwa [if_neg (by norm_num)] at hd

/-! ## C9 — `from_polygon` and degenerate / self-intersecting input -/

/-- Twice the signed area of the triangle `a b c` (orientation test). -/
def orient2 (a b c : Point2) : ℚ :=
  (b.x - a.x) * (c.y - a.y) - (b.y - a.y) * (c.x - a.x)

/-- Two segments cross properly (intersect at an interior point of
both). -/
def segsCross (s1 s2 : Seg2) : Bool :=
  orient2 s1.p1 s1.p2 s2.p1 * orient2 s1.p1 s1.p2 s2.p2 < 0 &&
  orient2 s2.p1 s2.p2 s1.p1 * orient2 s2.p1 s2.p2 s1.p2 < 0

/-- A polygon boundary is self-intersecting when two of its edges cross
properly (edges sharing an endpoint never cross properly). -/
def selfIntersecting (pts : List Point2) : Bool :=
  let ss := ringSegs2 pts
  (List.range ss.length).any fun i =>
    (List.range ss.length).any fun j =>
      decide (i < j) && segsCross (ss.getD i defaultSeg) (ss.getD j defaultSeg)

/-- The bow-tie quadrilateral: its boundary crosses itself. -/
def bowtie : List Point2 := [⟨0, 0⟩, ⟨1, 1⟩, ⟨1, 0⟩, ⟨0, 1⟩]

/-- C9 (counterexample): the spec claims `from_polygon` fails with
`InvalidGeometry` on degenerate or self-intersecting polygons.  The
source performs no such validation: on the self-intersecting bow-tie it
happily returns a `Room2D`. -/
theorem from_polygon_no_validation_cex :
    selfIntersecting bowtie = true ∧
    (fromPolygon unitWC "P" bowtie 0 3 none none none false
        false).isOk = true := by
  with_unfolding_all decide

/-- C9 (amended): `from_polygon` performs no degeneracy or
self-intersection validation at all.  With default wall-assigned
parameters it succeeds for *every* input polygon (clockwise inputs are
merely reversed), failing only when the floor-to-ceiling height is not
positive. -/
theorem from_polygon_accepts_any_polygon {W : Type} (wc : WContract W)
    (id : String) (polygon : List Point2) (fh ftc : ℚ) (g t : Bool)
    (hftc : 0 < ftc) :
    (fromPolygon wc id polygon fh ftc none none none g t).isOk = true := by
  unfold fromPolygon
  dsimp only
  have hinit : ∀ (b : List Point2),
      (room2DInit wc id b [] fh ftc none none none g t).isOk = true := by
    intro b
    unfold room2DInit
    dsimp only
    rw [if_neg (not_le.mpr hftc)]
    rw [show (initialBoundaryConditions (W := W)
      { identifier := id, boundary := if isClockwise b then b.reverse else b,
        holes := if isClockwise b then List.map List.reverse [] else [],
        floorHeight := fh, floorToCeilingHeight := ftc,
        segmentCountF := (if isClockwise b then b.reverse else b).length +
          (List.map List.length
            (if isClockwise b then List.map List.reverse [] else [])).sum,
        boundaryConditions := [], windowParameters := [],
        shadingParameters := [], airBoundaries := none,
        isGroundContact := g, isTopExposed := t }
      (if 0 < fh + ftc then .outdoors else .ground) none) = .ok _ from rfl]
    rw [exceptBindOk]
    dsimp only [Room2D.setWindowParameters]
    rw [exceptBindOk]
    dsimp only [Room2D.setShadingParameters]
    rw [exceptBindOk]
    split_ifs <;> rfl
  split_ifs <;> exact hinit _

/-- A degenerate (zero-area, colinear) triangle. -/
def colinearTri : List Point2 := [⟨0, 0⟩, ⟨1, 0⟩, ⟨2, 0⟩]

/-- Witness for `from_polygon_accepts_any_polygon`: even a zero-area
colinear "polygon" is accepted. -/
theorem from_polygon_accepts_any_polygon_witness :
    (fromPolygon unitWC "D" colinearTri 0 3 none none none false
        false).isOk = true :=
  from_polygon_accepts_any_polygon unitWC "D" colinearTri 0 3 false false
    (by norm_num)

/-! ## 3D geometry for the roof volume builder (geometry collaborator,
modelled from its documented contract) -/

/-- A plane given by a normal vector and an origin point
(`ladybug_geometry` `Plane(n, o)`). -/
structure Plane3 where
  n : Point3
  o : Point3
  deriving DecidableEq, Repr

/-- `plane.project_point(p, Vector3D(0, 0, 1))`: the vertical projection
of a point onto a plane.  Undefined (division by zero) only for vertical
planes, which the roof builder never projects onto. -/
def projectZ (pl : Plane3) (p : Point3) : Point3 :=
  ⟨p.x, p.y,
   pl.o.z - (pl.n.x * (p.x - pl.o.x) + pl.n.y * (p.y - pl.o.y)) / pl.n.z⟩

/-- Newell-style normal of a 3D vertex ring (twice the area-weighted
normal); the standard way `Face3D` derives its plane from vertices. -/
def newellVec (pts : List Point3) : Point3 :=
  (ringSegs3 pts).foldl
    (fun a s =>
      ⟨a.x + (s.p1.y - s.p2.y) * (s.p1.z + s.p2.z),
       a.y + (s.p1.z - s.p2.z) * (s.p1.x + s.p2.x),
       a.z + (s.p1.x - s.p2.x) * (s.p1.y + s.p2.y)⟩)
    ⟨0, 0, 0⟩

/-- A planar 3D face with an optional set of hole rings and its plane
(`ladybug_geometry` `Face3D`).  When the source constructs a `Face3D`
without an explicit plane, the plane is derived from the vertices. -/
structure Face3 where
  boundary : List Point3
  holes : List (List Point3)
  plane : Plane3
  deriving DecidableEq, Repr

/-- `Face3D(verts)`: plane derived from the vertices (Newell normal,
first vertex as origin). -/
def mkFace3 (b : List Point3) : Face3 :=
  ⟨b, [], ⟨newellVec b, b.headD ⟨0, 0, 0⟩⟩⟩

/-- `Face3D(verts, plane)`. -/
def mkFace3P (b : List Point3) (pl : Plane3) : Face3 := ⟨b, [], pl⟩

/-- `Face3D(verts, plane, holes)`. -/
def mkFace3H (b : List Point3) (hs : List (List Point3)) (pl : Plane3) :
    Face3 := ⟨b, hs, pl⟩

/-- `Face3D.flip()`: reverse the orientation of the face. -/
def Face3.flip (f : Face3) : Face3 :=
  ⟨f.boundary.reverse, f.holes.map List.reverse, f.plane⟩

/-- Area of a 3D vertex ring: half the norm of the Newell vector; exact
whenever the true area is rational. -/
def ringArea3 (pts : List Point3) : ℚ :=
  let nv := newellVec pts
  ratSqrt (nv.x ^ 2 + nv.y ^ 2 + nv.z ^ 2) / 2

/-- `Face3D.area`: boundary area minus hole areas. -/
def face3Area (f : Face3) : ℚ :=
  ringArea3 f.boundary - (f.holes.map ringArea3).sum

/-- Squared norm of the cross product of the two edges at `b` — the
colinearity measure used by `remove_colinear_vertices` on 3D faces
(vertex dropped when this is below the squared tolerance). -/
def crossSq3 (a b c : Point3) : ℚ :=
  let ux := b.x - a.x; let uy := b.y - a.y; let uz := b.z - a.z
  let vx := c.x - a.x; let vy := c.y - a.y; let vz := c.z - a.z
  (uy * vz - uz * vy) ^ 2 + (uz * vx - ux * vz) ^ 2 +
    (ux * vy - uy * vx) ^ 2

/-- `Polygon2D.remove_colinear_vertices`: drop vertices whose adjacent
edges span less than the tolerance in twice-triangle-area; the
degenerate result (fewer than three vertices) raises. -/
def removeColinearPoly (pts : List Point2) (tol : ℚ) :
    Except Unit (List Point2) :=
  let n := pts.length
  let kept := (List.range n).filter fun i =>
    |orient2 (pts.getD ((i + n - 1) % n) ⟨0, 0⟩) (pts.getD i ⟨0, 0⟩)
      (pts.getD ((i + 1) % n) ⟨0, 0⟩)| ≥ tol
  let res := kept.map fun i => pts.getD i ⟨0, 0⟩
  if res.length < 3 then .error () else .ok res

/-- `Face3D.remove_colinear_vertices`: the 3D analogue on the boundary
ring (holes carried through unchanged); the degenerate result raises. -/
def removeColinearFace3 (f : Face3) (tol : ℚ) : Except Unit Face3 :=
  let pts := f.boundary
  let n := pts.length
  let kept := (List.range n).filter fun i =>
    crossSq3 (pts.getD ((i + n - 1) % n) ⟨0, 0, 0⟩)
      (pts.getD i ⟨0, 0, 0⟩) (pts.getD ((i + 1) % n) ⟨0, 0, 0⟩) ≥ tol ^ 2
  let res := kept.map fun i => pts.getD i ⟨0, 0, 0⟩
  if res.length < 3 then .error () else .ok ⟨res, f.holes, f.plane⟩

/-- Ray-casting parity test: whether a point lies strictly inside a
polygon (`Polygon2D.is_point_inside`). -/
def pointInPolyRay (pts : List Point2) (p : Point2) : Bool :=
  (ringSegs2 pts).foldl
    (fun acc s =>
      if (decide (p.y < s.p1.y) ≠ decide (p.y < s.p2.y)) &&
          decide (p.x < s.p1.x +
            (p.y - s.p1.y) * (s.p2.x - s.p1.x) / (s.p2.y - s.p1.y)) then
        !acc
      else acc)
    false

/-- `Polygon2D.point_relationship`: `0` when the point lies within the
tolerance of an edge, `1` strictly inside, `-1` outside. -/
def pointRel (pts : List Point2) (p : Point2) (tol : ℚ) : Int :=
  if (ringSegs2 pts).any (fun s => distToSegLe s p tol) then 0
  else if pointInPolyRay pts p then 1
  else -1

/-- Whether two segments come within the tolerance of one another:
either a proper crossing or an end point within the tolerance of the
other segment. -/
def segsClose (s1 s2 : Seg2) (tol : ℚ) : Bool :=
  segsCross s1 s2 || distToSegLe s1 s2.p1 tol || distToSegLe s1 s2.p2 tol ||
    distToSegLe s2 s1.p1 tol || distToSegLe s2 s1.p2 tol

/-- `Polygon2D.polygon_relationship(other, tol)`: `1` when `self` fully
contains `other`, `0` when the two polygons touch or overlap, `-1` when
they are disjoint.  Modelled from the documented contract of the
geometry collaborator (spec §4.3: "signed polygon-relationship test:
disjoint / touching / containing"). -/
def polygonRelationship (self other : List Point2) (tol : ℚ) : Int :=
  if (ringSegs2 self).any (fun s1 =>
      (ringSegs2 other).any (fun s2 => segsClose s1 s2 tol)) then 0
  else if other.all (fun v => pointRel self v tol = 1) then 1
  else if other.any (fun v => pointRel self v tol = 1) ||
      self.any (fun v => pointRel other v tol = 1) then 0
  else -1

/-! ### Polyface (polyhedron-from-faces constructor) -/

/-- `Polyface3D`: the source keeps the input faces in `.faces` and
derives the edge bookkeeping from them. -/
structure Polyface where
  faces : List Face3
  deriving DecidableEq, Repr

/-- `Polyface3D.from_faces`: the faces of the polyface are the input
faces. -/
def fromFaces (fs : List Face3) (_tol : ℚ) : Polyface := ⟨fs⟩

/-- Collapse consecutive duplicate vertices of a ring within the
tolerance (including the wrap-around duplicate), as the polyface's
vertex bookkeeping does before deriving edges. -/
def dedupRing (pts : List Point3) (tol : ℚ) : List Point3 :=
  let step := pts.foldl
    (fun acc p =>
      match acc with
      | [] => [p]
      | q :: _ => if ptEq3 p q tol then acc else p :: acc)
    []
  let r := step.reverse
  match r with
  | [] => []
  | p :: _ =>
    if r.length ≥ 2 && ptEq3 (r.getLastD p) p tol then r.dropLast else r

/-- The undirected edge list of one vertex ring. -/
def ringEdges (pts : List Point3) (tol : ℚ) : List (Point3 × Point3) :=
  (ringSegs3 (dedupRing pts tol)).map fun s => (s.p1, s.p2)

/-- All edges of a polyface: boundary and hole rings of every face. -/
def polyfaceEdges (pf : Polyface) (tol : ℚ) : List (Point3 × Point3) :=
  pf.faces.flatMap fun f =>
    ringEdges f.boundary tol ++ f.holes.flatMap (fun h => ringEdges h tol)

/-- Two undirected edges coincide within the tolerance. -/
def edgeMatch (e1 e2 : Point3 × Point3) (tol : ℚ) : Bool :=
  (ptEq3 e1.1 e2.1 tol && ptEq3 e1.2 e2.2 tol) ||
    (ptEq3 e1.1 e2.2 tol && ptEq3 e1.2 e2.1 tol)

/-- Number of face edges coinciding with the given edge. -/
def edgeCount (pf : Polyface) (e : Point3 × Point3) (tol : ℚ) : Nat :=
  (polyfaceEdges pf tol).countP fun e2 => edgeMatch e e2 tol

/-- `Polyface3D.is_solid`: every edge of every face is shared by exactly
one other face (spec glossary: a naked edge is "an edge of a face not
shared by exactly one other face"). -/
def Polyface.isSolid (pf : Polyface) (tol : ℚ) : Bool :=
  (polyfaceEdges pf tol).all fun e => edgeCount pf e tol = 2

/-- `Polyface3D.naked_edges`: edges belonging to exactly one face. -/
def Polyface.nakedEdges (pf : Polyface) (tol : ℚ) : List (Point3 × Point3) :=
  (polyfaceEdges pf tol).filter fun e => edgeCount pf e tol = 1

/-! ## The roof volume builder (`Room2D._room_volume_with_roof`) -/

/-- A roof specification: projected 2D boundary polygons paired with
their planes.  Modelled from the spec (§4.3 input description): the
`RoofSpecification` class itself lives outside `src/`
(`dragonfly/roof.py`); `boundary_geometry_2d` and `planes` are its
aligned projected polygons and planes. -/
structure RoofSpec where
  geos : List (List Point2 × Plane3)
  deriving Repr

/-- The operations of `_room_volume_with_roof` that this embedding keeps
abstract, bundled as explicit function parameters.

`booleanIntersect` (`ladybug_geometry` `pb.intersect` plus
`Polygon2D._from_bool_poly`), `snapToPolygon` and
`coplanarDifference` and `mergeOverlappingEdges` are operations of the
external geometry collaborator.  `patchVerticalGaps`, `capPlanarHoles`
and `separateDisconnectedFaces` are the in-repo repair helpers
(`_patch_vertical_gaps`, `_cap_planar_holes`,
`_separate_disconnected_faces`), and `wallTransition` is the mid-segment
roof-transition computation of `_wall_faces_with_roof` (lines
5519–5623); their interiors are kept abstract because no claim of this
development depends on them — only on the order in which the pipeline
invokes them and on what the builder returns around them. -/
structure RoofOps where
  booleanIntersect :
    List (List Point2) → List Point2 → ℚ → Except Unit (List (List Point2))
  snapToPolygon : List Point2 → List Point2 → ℚ → List Point2
  coplanarDifference : Face3 → List Face3 → ℚ → List Face3
  mergeOverlappingEdges : Polyface → ℚ → Polyface
  patchVerticalGaps : Polyface → List Int → ℚ → Polyface × List Int
  capPlanarHoles : Polyface → List Int → ℚ → Polyface × List Int
  separateDisconnectedFaces :
    Polyface → List Int → ℚ → Polyface × List Int × Option (List Nat) × List Face3
  wallTransition :
    Seg3 → Point2 → Point2 → (List Point2 × Plane3) →
      List (List Point2 × Plane3) → ℚ →
      Option (List Point3 × ((List Point2 × Plane3) × List (List Point2 × Plane3)))

namespace Room2D

variable {W : Type}

/-- The 3D floor segments of a room (`floor_segments`): the boundary and
hole rings at the floor height. -/
def floorSegments3 (r : Room2D W) : List Seg3 :=
  let lift : Point2 → Point3 := fun p => ⟨p.x, p.y, r.floorHeight⟩
  ringSegs3 (r.boundary.map lift) ++
    r.holes.flatMap fun h => ringSegs3 (h.map lift)

/-- The flipped (downward-facing) floor face that seeds the room volume
(`self.floor_geometry.flip()`). -/
def floorFlipFace (r : Room2D W) : Face3 :=
  let lift : Point2 → Point3 := fun p => ⟨p.x, p.y, r.floorHeight⟩
  Face3.flip (mkFace3H (r.boundary.map lift) (r.holes.map (·.map lift))
    ⟨⟨0, 0, 1⟩, ⟨0, 0, r.floorHeight⟩⟩)

/-- The ceiling face `self.floor_geometry.move(Vector3D(0, 0, ftc))`. -/
def ceilFace (r : Room2D W) : Face3 :=
  let lift : Point2 → Point3 := fun p => ⟨p.x, p.y, r.ceilingHeight⟩
  mkFace3H (r.boundary.map lift) (r.holes.map (·.map lift))
    ⟨⟨0, 0, 1⟩, ⟨0, 0, r.ceilingHeight⟩⟩

end Room2D

/-- The relevance filter of `_room_volume_with_roof`: keep roof polygons
whose relationship with the room polygon is non-negative; on the first
polygon that fully contains the room (`poly_rel == 1`) the kept lists
are reset to that single polygon and the loop breaks. -/
def relevantRoofs (roomPoly : List Point2) (tol : ℚ) :
    List (List Point2 × Plane3) → List (List Point2 × Plane3) × Bool
  | [] => ([], false)
  | g :: rest =>
    let r := polygonRelationship g.1 roomPoly tol
    if r = 1 then ([g], true)
    else
      let o := relevantRoofs roomPoly tol rest
      if o.2 then o
      else if 0 ≤ r then (g :: o.1, false)
      else o

/-- Lift a 2D point to `z = 0` (`Point3D.from_point2d`). -/
def lift20 (p : Point2) : Point3 := ⟨p.x, p.y, 0⟩

/-- Drop a 3D point to the plan view. -/
def drop32 (p : Point3) : Point2 := ⟨p.x, p.y⟩

/-- `Polygon2D.is_polygon_inside(sub)`: the other polygon lies fully
inside this one. -/
def isPolygonInside (outer sub : List Point2) : Bool :=
  sub.all (pointInPolyRay outer)

/-- Add one sub-polygon to the face groups (`_roof_faces`, hole branch):
it joins the first group whose head polygon contains it, otherwise a new
group is appended. -/
def insertSubPoly (gs : List (List (List Point2))) (sub : List Point2) :
    List (List (List Point2)) :=
  match gs with
  | [] => [[sub]]
  | g :: gt =>
    if isPolygonInside (g.headD []) sub then (g ++ [sub]) :: gt
    else g :: insertSubPoly gt sub

/-- Group the boolean-intersection results into face-with-holes groups:
polygons sorted by descending area, each joining the first group whose
head contains it. -/
def groupSubPolys (polys : List (List Point2)) : List (List (List Point2)) :=
  match polys.mergeSort fun a b => decide (polyArea b ≤ polyArea a) with
  | [] => []
  | p :: rest => rest.foldl insertSubPoly [[p]]

/-- `Face3D(verts, holes=...)` without an explicit plane: plane derived
from the boundary vertices. -/
def mkFace3N (b : List Point3) (hs : List (List Point3)) : Face3 :=
  ⟨b, hs, ⟨newellVec b, b.headD ⟨0, 0, 0⟩⟩⟩

/-- Split a list into consecutive chunks of the given sizes. -/
def chunksBySizes {α : Type} : List α → List Nat → List (List α)
  | _, [] => []
  | l, n :: ns => l.take n :: chunksBySizes (l.drop n) ns

/-- The sorted segment lengths of a polygon (`_roof_faces`). -/
def sortedSegLens (poly : List Point2) : List ℚ :=
  ((ringSegs2 poly).map segLength).mergeSort fun a b => decide (a ≤ b)

/-- The largest segment length of a polygon. -/
def maxSegLen (poly : List Point2) : ℚ := (sortedSegLens poly).getLastD 0

/-- The smallest segment length, clamped up to the tolerance
(`min_len = tolerance if min_len < tolerance else min_len`). -/
def minSegLen (poly : List Point2) (tol : ℚ) : ℚ :=
  let m := (sortedSegLens poly).headD 0
  if m < tol then tol else m

/-- `Room2D._roof_faces`: boolean-intersect every relevant roof polygon
with the room polygons, project the results onto the roof planes, cover
any residual floor area with flat caps at the ceiling height, and clean
colinear vertices.  `None` is a failed boolean operation or a completely
degenerate room. -/
def roofFacesFn {W : Type} (ops : RoofOps) (room : Room2D W)
    (allRoomPoly : List (List Point2))
    (relGeos : List (List Point2 × Plane3)) (tol : ℚ) :
    Option (List Face3) :=
  let roomPolys := allRoomPoly.filterMap fun rp =>
    (removeColinearPoly rp tol).toOption
  if roomPolys.isEmpty then none
  else
    let roomPolyArea := polyArea (allRoomPoly.headD []) -
      ((allRoomPoly.drop 1).map polyArea).sum
    let intTol := tol / 1000
    let step : Option (List Face3 × ℚ) → (List Point2 × Plane3) →
        Option (List Face3 × ℚ) := fun st g =>
      match st with
      | none => none
      | some fa =>
        match removeColinearPoly g.1 tol with
        | .error _ => some fa -- degenerate roof polygon to ignore
        | .ok rf1 =>
          let rf2 := allRoomPoly.foldl
            (fun acc rom => ops.snapToPolygon rom acc tol) rf1
          match ops.booleanIntersect roomPolys rf2 intTol with
          | .error _ => none -- intersection failed for some reason
          | .ok polys =>
            if !room.holes.isEmpty && polys.length > 1 then
              let groups := groupSubPolys polys
              let area := fa.2 + (groups.map fun pg =>
                polyArea (pg.headD []) -
                  ((pg.drop 1).map polyArea).sum).sum
              let newFaces := groups.map fun pg =>
                mkFace3H ((pg.headD []).map fun v => projectZ g.2 (lift20 v))
                  ((pg.drop 1).map fun hr =>
                    hr.map fun v => projectZ g.2 (lift20 v)) g.2
              some (fa.1 ++ newFaces, area)
            else
              let area := fa.2 + (polys.map polyArea).sum
              let newFaces := polys.map fun sub =>
                mkFace3P (sub.map fun v => projectZ g.2 (lift20 v)) g.2
              some (fa.1 ++ newFaces, area)
    match relGeos.foldl step (some ([], 0)) with
    | none => none
    | some fa =>
      let maxLen := maxSegLen (allRoomPoly.headD [])
      let minLen := minSegLen (allRoomPoly.headD []) tol
      let tolArea := minLen * tol
      let areaDiff := |roomPolyArea - fa.2|
      let roofFaces1 :=
        if areaDiff > tolArea then -- room not covered by roofs
          let rmZ := room.ceilingHeight
          let subtractGeo := fa.1.map fun rf =>
            mkFace3N (rf.boundary.map fun p => ⟨p.x, p.y, rmZ⟩)
              (rf.holes.map fun h => h.map fun p => ⟨p.x, p.y, rmZ⟩)
          let coverFaces := ops.coplanarDifference room.ceilFace subtractGeo tol
          let upTolArea := maxLen * tol
          fa.1 ++ coverFaces.filter fun f => face3Area f ≤ areaDiff + upTolArea
        else fa.1
      some (roofFaces1.filterMap fun f => (removeColinearFace3 f tol).toOption)

/-- The default (never-reached) roof geometry entry. -/
def defaultGeo : List Point2 × Plane3 := ([], ⟨⟨0, 0, 1⟩, ⟨0, 0, 0⟩⟩)

/-- The per-segment state of a wall-ring walk: the currently-owning roof
polygon and plane, the remaining candidate roofs, the running start
vertex, and the wall faces emitted so far. -/
abbrev WallState : Type :=
  (List Point2 × Plane3) × List (List Point2 × Plane3) × Point2 × List Face3

/-- One segment of the wall walk of `_wall_faces_with_roof`: project the
segment onto the current roof plane when its end stays inside the
current roof polygon, otherwise delegate to the abstracted transition
computation. -/
def wallStep (ops : RoofOps) (tol : ℚ) (st : Option WallState)
    (x : Point2 × Seg3) : Option WallState :=
  match st with
  | none => none
  | some s =>
    let cur := s.1; let oth := s.2.1; let p1 := s.2.2.1
    let fs := s.2.2.2
    let pt2 := x.1; let seg := x.2
    if 0 ≤ pointRel cur.1 pt2 tol then -- segment ends in the same face
      some (cur, oth, pt2, fs ++ [mkFace3
        [seg.p1, seg.p2, projectZ cur.2 seg.p2, projectZ cur.2 seg.p1]])
    else
      match ops.wallTransition seg p1 pt2 cur oth tol with
      | none => none -- point not inside a roof; invalid roof
      | some tr =>
        if tr.1.isEmpty then none -- second point not inside a roof
        else
          some (tr.2.1, tr.2.2, pt2,
            fs ++ [mkFace3 ([seg.p1, seg.p2] ++ tr.1)])

/-- One ring of `Room2D._wall_faces_with_roof` (see `wallStep`). -/
def wallRingFold (ops : RoofOps) (relGeos : List (List Point2 × Plane3))
    (rmPoly : List Point2) (rmSegs : List Seg3) (tol : ℚ) :
    Option (List Face3) :=
  let pt1 := rmPoly.headD ⟨0, 0⟩
  match (List.range relGeos.length).find? fun i =>
      decide (0 ≤ pointRel (relGeos.getD i defaultGeo).1 pt1 tol) with
  | none => none -- first point not inside a roof, invalid roof
  | some i =>
    let current := relGeos.getD i defaultGeo
    let others := relGeos.take i ++ relGeos.drop (i + 1)
    let rotPoly := rmPoly.drop 1 ++ rmPoly.take 1
    match (rotPoly.zip rmSegs).foldl (wallStep ops tol)
        (some (current, others, pt1, [])) with
    | none => none
    | some s => some s.2.2.2

/-- `Room2D._wall_faces_with_roof`: walls for the boundary ring and each
hole ring. -/
def wallFacesFn (ops : RoofOps) (allRoomPoly : List (List Point2))
    (allSegments : List (List Seg3))
    (relGeos : List (List Point2 × Plane3)) (tol : ℚ) :
    Option (List Face3) :=
  (allRoomPoly.zip allSegments).foldl
    (fun st x =>
      match st with
      | none => none
      | some fs =>
        match wallRingFold ops relGeos x.1 x.2 tol with
        | none => none
        | some ws => some (fs ++ ws))
    (some [])

/-- The outcome of `_room_volume_with_roof`: either the failure triple
`(None, None, None)` or the room polyface with the roof-face indices and
the optional excluded-wall set. -/
inductive RoofVolResult where
  | failure
  | success (pf : Polyface) (roofFaceI : List Int) (exWallI : Option (List Nat))
  deriving DecidableEq, Repr

/-- Whether the builder failed (returned `None`). -/
def RoofVolResult.isFailure : RoofVolResult → Bool
  | .failure => true
  | .success _ _ _ => false

/-- The returned polyface (empty on failure). -/
def RoofVolResult.polyface : RoofVolResult → Polyface
  | .failure => ⟨[]⟩
  | .success pf _ _ => pf

/-- The returned roof-face indices (empty on failure). -/
def RoofVolResult.roofFaceI : RoofVolResult → List Int
  | .failure => []
  | .success _ rfi _ => rfi

/-- `Room2D._room_volume_with_roof`: the relevance filter, the
fully-bounded fast path, and the general path with the repair pipeline
(overlapping-edge merge, vertical-gap patching, disconnected-face
removal, planar-hole capping, re-merging after each).  After the
pipeline the polyface is returned whether or not it is solid; `None`
arises only from a failed roof-face or wall computation. -/
def roomVolumeWithRoof {W : Type} (ops : RoofOps) (room : Room2D W)
    (spec : RoofSpec) (tol : ℚ) : RoofVolResult :=
  let roomPoly := room.boundary
  -- gather all of the relevant roof polygons for the Room2D
  let rr := relevantRoofs roomPoly tol spec.geos
  let floorFlip := room.floorFlipFace
  if rr.2 then
    -- when fully bounded, project the segments onto the single roof face
    let roofPlane := (rr.1.headD defaultGeo).2
    let walls := room.floorSegments3.map fun seg =>
      mkFace3 [seg.p1, seg.p2, projectZ roofPlane seg.p2,
        projectZ roofPlane seg.p1]
    let roofVerts := room.floorSegments3.map fun seg =>
      projectZ roofPlane seg.p1
    let roofFace :=
      if room.holes.isEmpty then mkFace3 roofVerts
      else
        let vCount := room.boundary.length
        mkFace3N (roofVerts.take vCount)
          (chunksBySizes (roofVerts.drop vCount) (room.holes.map List.length))
    let pFaces := floorFlip :: walls ++ [roofFace]
    let roomPolyface := fromFaces pFaces tol
    if !(roomPolyface.isSolid tol) then -- roof is touching a floor segment
      let sep := ops.separateDisconnectedFaces roomPolyface [-1] tol
      -- the merged polyface the source computes here is discarded by its
      -- return of a fresh `from_faces(p_faces)`
      .success (fromFaces pFaces tol) sep.2.1 sep.2.2.1
    else
      .success (fromFaces pFaces tol) [-1] none
  else
    -- gather polygons accounting for all of the Room2D holes
    let allRoomPoly := roomPoly :: room.holes
    let flrSegs := room.floorSegments3
    let allSegments :=
      if room.holes.isEmpty then [flrSegs]
      else flrSegs.take roomPoly.length ::
        chunksBySizes (flrSegs.drop roomPoly.length)
          (room.holes.map List.length)
    match roofFacesFn ops room allRoomPoly rr.1 tol with
    | none => .failure -- invalid roof geometry
    | some roofFaces =>
      -- new roofs added; rebuild polygons
      let rel2 := if roofFaces.length > rr.1.length then
          roofFaces.map fun geo => (geo.boundary.map drop32, geo.plane)
        else rr.1
      match wallFacesFn ops allRoomPoly allSegments rel2 tol with
      | none => .failure -- invalid roof geometry
      | some walls =>
        let pFaces := floorFlip :: walls ++ roofFaces
        let roofFaceI := (List.range roofFaces.length).map
          fun i => -(1 : Int) - i
        let pf0 := fromFaces pFaces tol
        -- merge overlapping edges so we don't get false readings
        let pf1 := if !(pf0.isSolid tol) then
            ops.mergeOverlappingEdges pf0 tol else pf0
        -- patch any vertical gaps between roofs with new walls
        let st2 := if (pf1.nakedEdges tol).length ≠ 0 then
            let pr := ops.patchVerticalGaps pf1 roofFaceI tol
            (if !(pr.1.isSolid tol) then
              ops.mergeOverlappingEdges pr.1 tol else pr.1, pr.2)
          else (pf1, roofFaceI)
        -- remove disconnected roof geometries from the polyface
        let st3 := if !(st2.1.isSolid tol) then
            let sp := ops.separateDisconnectedFaces st2.1 st2.2 tol
            ((if !(sp.1.isSolid tol) then
              ops.mergeOverlappingEdges sp.1 tol else sp.1), sp.2.1, sp.2.2.1)
          else (st2.1, st2.2, none)
        -- patch any remaining planar holes by capping them
        let st4 := if (st3.1.nakedEdges tol).length ≠ 0 then
            let cp := ops.capPlanarHoles st3.1 st3.2.1 tol
            (if !(cp.1.isSolid tol) then
              ops.mergeOverlappingEdges cp.1 tol else cp.1, cp.2)
          else (st3.1, st3.2.1)
        .success st4.1 st4.2 st3.2.2

/-- `Polyface3D.from_offset_face(floor_geometry, ftc)`: the plain
vertical extrusion of the floor polygon used as the fallback volume.
Modelled from the external constructor's contract: the floor, one wall
per segment, and the ceiling at `floor + ftc`. -/
def prismPolyface {W : Type} (room : Room2D W) (tol : ℚ) : Polyface :=
  let pl : Plane3 := ⟨⟨0, 0, 1⟩, ⟨0, 0, room.ceilingHeight⟩⟩
  let walls := room.floorSegments3.map fun seg =>
    mkFace3 [seg.p1, seg.p2, projectZ pl seg.p2, projectZ pl seg.p1]
  fromFaces (room.floorFlipFace :: walls ++ [room.ceilFace]) tol

/-- The room-volume selection of `Room2D.to_honeybee` (lines 3830–3852):
when a roof specification applies, duplicate vertices are removed and
the roof builder runs; a `None` result, or (with `enforce_solid`) a
non-solid polyface, falls back to the plain vertical extrusion of the
floor polygon. -/
def toHoneybeeVolume {W : Type} (ops : RoofOps) (room : Room2D W)
    (roofSpec : Option RoofSpec) (tol : ℚ) (enforceSolid : Bool) :
    Polyface × List Int :=
  match roofSpec with
  | none => (prismPolyface room tol, [-1])
  | some spec =>
    let room2 := rdvSafe tol room
    match roomVolumeWithRoof ops room2 spec tol with
    | .failure => (prismPolyface room2 tol, [-1]) -- complete failure
    | .success pf rfi _ =>
      if enforceSolid && !(pf.isSolid tol) then
        (prismPolyface room2 tol, [-1])
      else (pf, rfi)

/-! ## C5 — behaviour when the repair pipeline cannot reach a solid -/

/-- A concrete instantiation of the abstracted operations: the boolean
intersection returns the unit square (the true intersection for the
inputs it is used with below), polygon snapping and coplanar difference
with nothing to subtract return their input, and the repair operations
find nothing to repair. -/
def cexOps : RoofOps :=
  { booleanIntersect := fun _ _ _ => .ok [[⟨0, 0⟩, ⟨1, 0⟩, ⟨1, 1⟩, ⟨0, 1⟩]]
    snapToPolygon := fun _ rf _ => rf
    coplanarDifference := fun f _ _ => [f]
    mergeOverlappingEdges := fun pf _ => pf
    patchVerticalGaps := fun pf rfi _ => (pf, rfi)
    capPlanarHoles := fun pf rfi _ => (pf, rfi)
    separateDisconnectedFaces := fun pf rfi _ => (pf, rfi, none, [])
    wallTransition := fun _ _ _ _ _ _ => none }

/-- The unit-square room with a 2 m floor-to-ceiling height. -/
def sqRoom : Room2D Unit :=
  { identifier := "R", boundary := [⟨0, 0⟩, ⟨1, 0⟩, ⟨1, 1⟩, ⟨0, 1⟩],
    holes := [], floorHeight := 0, floorToCeilingHeight := 2,
    segmentCountF := 4,
    boundaryConditions := List.replicate 4 .outdoors,
    windowParameters := List.replicate 4 none,
    shadingParameters := List.replicate 4 none,
    airBoundaries := some (List.replicate 4 false),
    isGroundContact := false, isTopExposed := false }

/-- A roof congruent with the room's footprint on the plane `z = y`,
which touches the floor along the edge `y = 0`. -/
def touchSpec : RoofSpec :=
  ⟨[([⟨0, 0⟩, ⟨1, 0⟩, ⟨1, 1⟩, ⟨0, 1⟩], ⟨⟨0, -1, 1⟩, ⟨0, 0, 0⟩⟩)]⟩

/-- The builder's result on the touching roof. -/
def touchRes : RoofVolResult :=
  roomVolumeWithRoof cexOps sqRoom touchSpec (1 / 100)

/-- C5 (counterexample): the spec claims that when the repair pipeline
ends without a closed solid the builder returns `None`.  On the touching
roof the pipeline finds nothing to repair (there are no naked edges,
only a four-face edge), yet the builder returns the non-solid polyface
rather than `None`. -/
theorem roof_builder_returns_nonsolid_cex :
    touchRes.isFailure = false ∧
    (touchRes.polyface.nakedEdges (1 / 100)).length = 0 ∧
    touchRes.polyface.isSolid (1 / 100) = false := by
  with_unfolding_all decide

/-- C5 (amended): after the repair pipeline the builder returns the
polyface whether or not it is solid; `None` arises only from a failed
roof-face or wall computation.  The fallback to the plain vertical
extrusion happens in the caller: `to_honeybee` (with its default
`enforce_solid=True`) treats both a `None` result and a non-solid
polyface as failure and extrudes the floor polygon instead. -/
theorem roof_builder_nonsolid_falls_back {W : Type} (ops : RoofOps)
    (room : Room2D W) (spec : RoofSpec) (tol : ℚ)
    (h : (roomVolumeWithRoof ops (rdvSafe tol room) spec tol).isFailure =
        true ∨
      (roomVolumeWithRoof ops (rdvSafe tol room) spec
          tol).polyface.isSolid tol = false) :
    toHoneybeeVolume ops room (some spec) tol true =
      (prismPolyface (rdvSafe tol room) tol, [-1]) := by
  unfold toHoneybeeVolume
  dsimp only
  cases hres : roomVolumeWithRoof ops (rdvSafe tol room) spec tol with
  | failure => rfl
  | success pf rfi exw =>
    rw [hres] at h
    rcases h with h | h
    · cases h
    · simp only [RoofVolResult.polyface] at h
      simp [h]

/-- Witness for `roof_builder_nonsolid_falls_back`: the touching-roof
result is non-solid, so `to_honeybee` uses the plain extrusion. -/
theorem roof_builder_nonsolid_falls_back_witness :
    toHoneybeeVolume cexOps sqRoom (some touchSpec) (1 / 100) true =
      (prismPolyface (rdvSafe (1 / 100) sqRoom) (1 / 100), [-1]) :=
  roof_builder_nonsolid_falls_back cexOps sqRoom touchSpec (1 / 100)
    (Or.inr (by with_unfolding_all decide))

/-! ## C6 — the fully-bounded fast path -/

/-- `ringSegs3` has one segment per vertex. -/
theorem ringSegs3_length (pts : List Point3) :
    (ringSegs3 pts).length = pts.length := by
  cases pts with
  | nil => rfl
  | cons p ps => simp [ringSegs3, List.length_zip]

/-- The 3D floor segments cover the geometric segment count. -/
theorem floorSegments3_length {W : Type} (r : Room2D W) :
    r.floorSegments3.length = r.geomSegCount := by
  unfold Room2D.floorSegments3 Room2D.geomSegCount
  simp only [List.length_append, ringSegs3_length, List.length_map,
    List.length_flatMap]
  congr 1
  rw [List.map_congr_left (g := List.length) fun h _ => by
    simp [ringSegs3_length]]

/-- A roof polygon fully containing the unit square, on the touching
plane `z = y`. -/
def bigTouchSpec : RoofSpec :=
  ⟨[([⟨-1, -1⟩, ⟨2, -1⟩, ⟨2, 2⟩, ⟨-1, 2⟩], ⟨⟨0, -1, 1⟩, ⟨0, 0, 0⟩⟩)]⟩

/-- The builder's result on the containing, touching roof. -/
def bigTouchRes : RoofVolResult :=
  roomVolumeWithRoof cexOps sqRoom bigTouchSpec (1 / 100)

/-- C6 (counterexample): a single roof polygon fully contains the floor
polygon, so the fast path is taken — but with the roof plane touching
the floor along one edge the resulting polyface is not a closed solid,
contradicting the claim that the fast path "returns a closed solid
(is_solid true)". -/
theorem roof_fast_path_solid_cex :
    (relevantRoofs sqRoom.boundary (1 / 100) bigTouchSpec.geos).2 = true ∧
    bigTouchRes.isFailure = false ∧
    bigTouchRes.polyface.faces.length = 6 ∧
    bigTouchRes.polyface.isSolid (1 / 100) = false := by
  with_unfolding_all decide

/-- C6 (amended): when some roof polygon fully contains the floor
polygon, the builder takes the fast path — projecting each floor vertex
vertically onto that single roof plane — and returns (never `None`) a
polyface made of exactly one floor face, `segment_count` wall faces and
one roof face; the polyface is not guaranteed solid (a roof touching the
floor produces a non-solid result, returned as-is). -/
theorem roof_fast_path_structure {W : Type} (ops : RoofOps)
    (room : Room2D W) (spec : RoofSpec) (tol : ℚ)
    (hfb : (relevantRoofs room.boundary tol spec.geos).2 = true) :
    (roomVolumeWithRoof ops room spec tol).isFailure = false ∧
    (roomVolumeWithRoof ops room spec tol).polyface.faces =
      room.floorFlipFace ::
        (room.floorSegments3.map fun seg =>
          mkFace3 [seg.p1, seg.p2,
            projectZ ((relevantRoofs room.boundary tol
              spec.geos).1.headD defaultGeo).2 seg.p2,
            projectZ ((relevantRoofs room.boundary tol
              spec.geos).1.headD defaultGeo).2 seg.p1]) ++
        [(if room.holes.isEmpty then
            mkFace3 (room.floorSegments3.map fun seg =>
              projectZ ((relevantRoofs room.boundary tol
                spec.geos).1.headD defaultGeo).2 seg.p1)
          else
            mkFace3N ((room.floorSegments3.map fun seg =>
                projectZ ((relevantRoofs room.boundary tol
                  spec.geos).1.headD defaultGeo).2 seg.p1).take
                room.boundary.length)
              (chunksBySizes ((room.floorSegments3.map fun seg =>
                projectZ ((relevantRoofs room.boundary tol
                  spec.geos).1.headD defaultGeo).2 seg.p1).drop
                room.boundary.length) (room.holes.map List.length)))] ∧
    (roomVolumeWithRoof ops room spec tol).polyface.faces.length =
      room.geomSegCount + 2 := by
  unfold roomVolumeWithRoof
  dsimp only
  rw [hfb]
  simp only [if_true]
  constructor
  · split_ifs <;> rfl
  constructor
  · split_ifs <;> rfl
  · split_ifs <;>
      simp [RoofVolResult.polyface, fromFaces, floorSegments3_length]

/-- A containing roof polygon strictly above the room: the plane
`z = y / 2 + 2`. -/
def scene3Spec : RoofSpec :=
  ⟨[([⟨-1, -1⟩, ⟨2, -1⟩, ⟨2, 2⟩, ⟨-1, 2⟩], ⟨⟨0, -1, 2⟩, ⟨0, 0, 2⟩⟩)]⟩

/-- The builder's result on the strictly-above containing roof. -/
def scene3Res : RoofVolResult :=
  roomVolumeWithRoof cexOps sqRoom scene3Spec (1 / 100)

/-- Witness for `roof_fast_path_structure`: a flat roof tilted above one
edge of the unit square (spec Scenario 3).  The fast path produces the
six expected faces, and here the result actually is a closed solid. -/
theorem roof_fast_path_structure_witness :
    (relevantRoofs sqRoom.boundary (1 / 100) scene3Spec.geos).2 = true ∧
    scene3Res.isFailure = false ∧
    scene3Res.polyface.faces.length = sqRoom.geomSegCount + 2 ∧
    scene3Res.polyface.isSolid (1 / 100) = true :=
  have hfb : (relevantRoofs sqRoom.boundary (1 / 100)
      scene3Spec.geos).2 = true := by with_unfolding_all decide
  have hs := roof_fast_path_structure cexOps sqRoom scene3Spec (1 / 100) hfb
  ⟨hfb, hs.1, hs.2.2, by with_unfolding_all decide⟩

/-! ## C7 — a roof specification disjoint from the floor polygon -/

/-- A segment is at distance zero from its own start point. -/
theorem distToSegSq_p1 (s : Seg2) : distToSegSq s s.p1 = 0 := by
  unfold distToSegSq
  dsimp only
  split_ifs with h
  · simp [distSq2]
  · simp only [sub_self, zero_mul, add_zero, zero_div, zero_add]
    rw [min_eq_right (by norm_num), max_self]
    simp [distSq2]

/-- The start vertices of a ring's segments are the ring's vertices. -/
theorem ringSegs2_map_p1 (pts : List Point2) :
    (ringSegs2 pts).map Seg2.p1 = pts := by
  cases pts with
  | nil => rfl
  | cons p ps =>
    show ((((p :: ps).zip ((p :: ps).drop 1 ++ [p])).map
      fun q => Seg2.mk q.1 q.2).map Seg2.p1) = p :: ps
    rw [List.map_map]
    exact List.map_fst_zip _ _ (by simp)

/-- A vertex of a polygon is never outside it: its own segment puts it
within any non-negative tolerance of the boundary. -/
theorem pointRel_vertex (pts : List Point2) (v : Point2) (tol : ℚ)
    (htol : 0 ≤ tol) (hv : v ∈ pts) : 0 ≤ pointRel pts v tol := by
  have hv2 : v ∈ (ringSegs2 pts).map Seg2.p1 := by
    rw [ringSegs2_map_p1]; exact hv
  obtain ⟨s, hs, hsp⟩ := List.mem_map.mp hv2
  have hdist : distToSegLe s v tol = true := by
    subst hsp
    simp [distToSegLe, distToSegSq_p1, htol, sq_nonneg]
  unfold pointRel
  rw [if_pos (List.any_eq_true.mpr ⟨s, hs, hdist⟩)]

/-- A fully-disjoint roof specification survives the relevance filter as
the empty list. -/
theorem relevantRoofs_disjoint (roomPoly : List Point2) (tol : ℚ)
    (geos : List (List Point2 × Plane3))
    (h : ∀ g ∈ geos, polygonRelationship g.1 roomPoly tol = -1) :
    relevantRoofs roomPoly tol geos = ([], false) := by
  induction geos with
  | nil => rfl
  | cons g rest ih =>
    have hg := h g (by simp)
    unfold relevantRoofs
    rw [hg, ih fun x hx => h x (by simp [hx])]
    norm_num

/-- With no relevant roof polygons, `_roof_faces` synthesizes exactly
one flat roof cap: the residual-cover step subtracts nothing from the
ceiling face and keeps it (hypotheses: the clean-boundary conditions and
the code's own residual-area comparisons). -/
theorem roofFacesFn_no_relevant {W : Type} (ops : RoofOps)
    (room : Room2D W) (tol : ℚ)
    (hclean : removeColinearPoly room.boundary tol = .ok room.boundary)
    (hceil : removeColinearFace3 room.ceilFace tol = .ok room.ceilFace)
    (hcd : ops.coplanarDifference room.ceilFace [] tol = [room.ceilFace])
    (harea1 : minSegLen room.boundary tol * tol < |polyArea room.boundary|)
    (harea2 : face3Area room.ceilFace ≤
      |polyArea room.boundary| + maxSegLen room.boundary * tol) :
    roofFacesFn ops room [room.boundary] [] tol = some [room.ceilFace] := by
  have hfm : ([room.boundary].filterMap fun rp =>
      (removeColinearPoly rp tol).toOption) = [room.boundary] := by
    rw [List.filterMap_cons, hclean]
    rfl
  unfold roofFacesFn
  rw [hfm]
  simp only [List.isEmpty_cons, List.foldl_nil, List.headD_cons,
    List.drop_succ_cons, List.drop_nil, List.map_nil, List.sum_nil,
    List.map_cons, sub_zero]
  rw [if_neg (by simp)]
  split_ifs with hcond
  · rw [hcd]
    rw [show ([room.ceilFace].filter fun f => decide (face3Area f ≤
        |polyArea room.boundary| + maxSegLen room.boundary * tol)) =
        [room.ceilFace] by
      simp only [List.filter_cons, List.filter_nil]
      rw [if_pos (by simpa using harea2)]]
    simp only [List.nil_append, Option.some.injEq]
    rw [List.filterMap_cons, hceil]
    rfl
  · exact absurd harea1 (by simpa using hcond)

/-- One wall-walk step in the always-inside case, iterated over a whole
segment list: the state's roof never changes and one projected quad is
emitted per segment. -/
theorem wallStep_fold_sameface (ops : RoofOps) (tol : ℚ)
    (poly : List Point2) (pl : Plane3) :
    ∀ (pairs : List (Point2 × Seg3))
      (oth : List (List Point2 × Plane3)) (p : Point2) (fs : List Face3),
      (∀ x ∈ pairs, 0 ≤ pointRel poly x.1 tol) →
      ∃ q, pairs.foldl (wallStep ops tol) (some ((poly, pl), oth, p, fs)) =
        some ((poly, pl), oth, q, fs ++ pairs.map fun x =>
          mkFace3 [x.2.p1, x.2.p2, projectZ pl x.2.p2,
            projectZ pl x.2.p1]) := by
  intro pairs
  induction pairs with
  | nil => intro oth p fs _; exact ⟨p, by simp⟩
  | cons x xs ih =>
    intro oth p fs h
    rw [List.foldl_cons]
    rw [show wallStep ops tol (some ((poly, pl), oth, p, fs)) x =
        some ((poly, pl), oth, x.1, fs ++ [mkFace3 [x.2.p1, x.2.p2,
          projectZ pl x.2.p2, projectZ pl x.2.p1]]) from by
      unfold wallStep
      dsimp only
      rw [if_pos (h x (by simp))]]
    obtain ⟨q, hq⟩ := ih oth x.1 _ (fun y hy => h y (by simp [hy]))
    refine ⟨q, ?_⟩
    rw [hq]
    simp

/-- A wall ring whose vertices all stay inside the single candidate roof
polygon produces one projected quad per segment. -/
theorem wallRingFold_sameface (ops : RoofOps) (poly : List Point2)
    (pl : Plane3) (rmPoly : List Point2) (rmSegs : List Seg3) (tol : ℚ)
    (hne : rmPoly ≠ [])
    (hin : ∀ v ∈ rmPoly, 0 ≤ pointRel poly v tol) :
    wallRingFold ops [(poly, pl)] rmPoly rmSegs tol =
      some (((rmPoly.drop 1 ++ rmPoly.take 1).zip rmSegs).map fun x =>
        mkFace3 [x.2.p1, x.2.p2, projectZ pl x.2.p2,
          projectZ pl x.2.p1]) := by
  have hhead : rmPoly.headD ⟨0, 0⟩ ∈ rmPoly := by
    cases rmPoly with
    | nil => exact absurd rfl hne
    | cons a l => simp
  have h0 : 0 ≤ pointRel (([(poly, pl)] :
      List (List Point2 × Plane3)).getD 0 defaultGeo).1
      (rmPoly.headD ⟨0, 0⟩) tol := hin _ hhead
  have hfind : (List.range ([(poly, pl)] :
      List (List Point2 × Plane3)).length).find? (fun i => decide
        (0 ≤ pointRel ((([(poly, pl)] :
          List (List Point2 × Plane3)).getD i defaultGeo)).1
          (rmPoly.headD ⟨0, 0⟩) tol)) = some 0 := by
    rw [show List.range ([(poly, pl)] :
        List (List Point2 × Plane3)).length = [0] by
      simp [List.range_succ]]
    rw [List.find?_cons]
    rw [decide_eq_true h0]
  unfold wallRingFold
  simp only []
  rw [hfind]
  simp only [List.getD_cons_zero, List.take_zero, List.drop_succ_cons,
    List.drop_nil, List.nil_append]
  obtain ⟨q, hq⟩ := wallStep_fold_sameface ops tol poly pl
    ((rmPoly.drop 1 ++ rmPoly.take 1).zip rmSegs) [] (rmPoly.headD ⟨0, 0⟩)
    []
    (fun x hx => hin x.1
      (by
        rcases List.mem_append.mp (List.of_mem_zip hx).1 with hx1 | hx1
        · exact List.mem_of_mem_drop hx1
        · exact List.mem_of_mem_take hx1))
  rw [hq]
  rfl

/-- A solid polyface has no naked edges. -/
theorem nakedEdges_eq_nil_of_isSolid (pf : Polyface) (tol : ℚ)
    (h : pf.isSolid tol = true) : pf.nakedEdges tol = [] := by
  unfold Polyface.isSolid at h
  unfold Polyface.nakedEdges
  rw [List.filter_eq_nil_iff]
  intro e he
  have h2 := (List.all_eq_true.mp h) e he
  simp only [decide_eq_true_eq] at h2 ⊢
  omega

/-- Dropping the ceiling face's vertices back to the plan view recovers
the room boundary. -/
theorem ceilFace_boundary_drop {W : Type} (r : Room2D W) :
    r.ceilFace.boundary.map drop32 = r.boundary := by
  show (r.boundary.map fun p =>
    (⟨p.x, p.y, r.ceilingHeight⟩ : Point3)).map drop32 = r.boundary
  rw [List.map_map]
  have h : ∀ l : List Point2, (l.map (drop32 ∘ fun p =>
      (⟨p.x, p.y, r.ceilingHeight⟩ : Point3))) = l := by
    intro l
    induction l with
    | nil => rfl
    | cons a t ih =>
      show drop32 ⟨a.x, a.y, r.ceilingHeight⟩ :: _ = a :: t
      rw [ih]
      rfl
  exact h r.boundary

/-- A square roof polygon far away from the unit-square room, on a flat
plane at `z = 10`: its projected footprint is fully disjoint from the
room's floor polygon. -/
def c7Spec : RoofSpec :=
  ⟨[([⟨5, 5⟩, ⟨6, 5⟩, ⟨6, 6⟩, ⟨5, 6⟩], ⟨⟨0, 0, 1⟩, ⟨0, 0, 10⟩⟩)]⟩

/-- The builder's result on the fully-disjoint roof. -/
def c7Res : RoofVolResult :=
  roomVolumeWithRoof cexOps sqRoom c7Spec (1 / 100)

/-- C7 — counterexample to the literal claim: with every roof polygon
fully disjoint from the floor polygon (`polygonRelationship = -1`), the
builder does not return `None`; it returns a closed solid prism whose
roof is the flat ceiling cap. -/
theorem roof_disjoint_returns_volume_cex :
    (∀ g ∈ c7Spec.geos,
      polygonRelationship g.1 sqRoom.boundary (1 / 100) = -1) ∧
    c7Res.isFailure = false ∧
    c7Res.polyface.isSolid (1 / 100) = true ∧
    c7Res.roofFaceI = [-1] ∧
    c7Res.polyface.faces.getLast? = some sqRoom.ceilFace := by
  with_unfolding_all decide

/-- C7 (corrected): when every roof polygon of the specification is
fully disjoint from the room's floor polygon (the relevance filter keeps
nothing), `_room_volume_with_roof` does not return `None`.  The
residual-cover step of `_roof_faces` re-covers the whole room with the
flat ceiling face, so the builder itself produces the plain extruded
prism (flat roof cap, one wall per segment, floor), returned as a
success with roof-face index `-1`; no fallback in the caller is
triggered.  (Hypotheses: the boundary is already free of colinear or
duplicate vertices at the tolerance, the external coplanar difference
with nothing to subtract is the identity, the code's own residual-area
checks pass, and the resulting prism is a closed solid.) -/
theorem roof_disjoint_synthesizes_volume {W : Type} (ops : RoofOps)
    (room : Room2D W) (spec : RoofSpec) (tol : ℚ) (htol : 0 ≤ tol)
    (hdisj : ∀ g ∈ spec.geos,
      polygonRelationship g.1 room.boundary tol = -1)
    (hholes : room.holes = []) (hbne : room.boundary ≠ [])
    (hclean : removeColinearPoly room.boundary tol = .ok room.boundary)
    (hceil : removeColinearFace3 room.ceilFace tol = .ok room.ceilFace)
    (hcd : ops.coplanarDifference room.ceilFace [] tol = [room.ceilFace])
    (harea1 : minSegLen room.boundary tol * tol < |polyArea room.boundary|)
    (harea2 : face3Area room.ceilFace ≤
      |polyArea room.boundary| + maxSegLen room.boundary * tol)
    (hsolid : (prismPolyface room tol).isSolid tol = true) :
    (roomVolumeWithRoof ops room spec tol).isFailure = false ∧
    roomVolumeWithRoof ops room spec tol =
      .success (prismPolyface room tol) [-1] none := by
  have hrr := relevantRoofs_disjoint room.boundary tol spec.geos hdisj
  have hrf := roofFacesFn_no_relevant ops room tol hclean hceil hcd
    harea1 harea2
  have hin : ∀ v ∈ room.boundary, 0 ≤ pointRel room.boundary v tol :=
    fun v hv => pointRel_vertex room.boundary v tol htol hv
  have hring := wallRingFold_sameface ops room.boundary
    room.ceilFace.plane room.boundary room.floorSegments3 tol hbne hin
  have hlen2 : room.floorSegments3.length ≤
      (room.boundary.drop 1 ++ room.boundary.take 1).length := by
    rw [floorSegments3_length]
    unfold Room2D.geomSegCount
    rw [hholes]
    have h1 : 0 < room.boundary.length := List.length_pos.mpr hbne
    simp only [List.length_append, List.length_drop, List.length_take,
      List.map_nil, List.sum_nil, Nat.add_zero]
    omega
  have hwallmap : (((room.boundary.drop 1 ++ room.boundary.take 1).zip
      room.floorSegments3).map fun x => mkFace3 [x.2.p1, x.2.p2,
        projectZ room.ceilFace.plane x.2.p2,
        projectZ room.ceilFace.plane x.2.p1]) =
      room.floorSegments3.map fun seg => mkFace3 [seg.p1, seg.p2,
        projectZ room.ceilFace.plane seg.p2,
        projectZ room.ceilFace.plane seg.p1] := by
    rw [show (fun x : Point2 × Seg3 => mkFace3 [x.2.p1, x.2.p2,
        projectZ room.ceilFace.plane x.2.p2,
        projectZ room.ceilFace.plane x.2.p1]) =
        (fun seg : Seg3 => mkFace3 [seg.p1, seg.p2,
          projectZ room.ceilFace.plane seg.p2,
          projectZ room.ceilFace.plane seg.p1]) ∘ Prod.snd from rfl]
    rw [← List.map_map]
    rw [List.map_snd_zip _ _ hlen2]
  have hwf : wallFacesFn ops [room.boundary] [room.floorSegments3]
      [(room.boundary, room.ceilFace.plane)] tol =
      some (room.floorSegments3.map fun seg => mkFace3 [seg.p1, seg.p2,
        projectZ room.ceilFace.plane seg.p2,
        projectZ room.ceilFace.plane seg.p1]) := by
    unfold wallFacesFn
    simp only [List.zip_cons_cons, List.zip_nil_right, List.foldl_cons,
      List.foldl_nil]
    rw [hring]
    simp only []
    rw [hwallmap]
    simp
  have hpf : fromFaces (room.floorFlipFace ::
      (room.floorSegments3.map fun seg => mkFace3 [seg.p1, seg.p2,
        projectZ room.ceilFace.plane seg.p2,
        projectZ room.ceilFace.plane seg.p1]) ++ [room.ceilFace]) tol =
      prismPolyface room tol := rfl
  have hn := nakedEdges_eq_nil_of_isSolid _ _ hsolid
  have hmain : roomVolumeWithRoof ops room spec tol =
      .success (prismPolyface room tol) [-1] none := by
    unfold roomVolumeWithRoof
    simp only [hrr, hholes, Bool.false_eq_true, if_false,
      List.isEmpty_nil, eq_self_iff_true, if_true]
    rw [hrf]
    simp only []
    rw [if_pos (by simp)]
    simp only [List.map_cons, List.map_nil]
    rw [ceilFace_boundary_drop]
    rw [hwf]
    simp only []
    rw [hpf]
    simp [hsolid, hn]
    decide
  exact ⟨by rw [hmain]; rfl, hmain⟩

/-- C7 witness: the fully-disjoint roof over the unit-square room
satisfies every hypothesis, and the builder returns the solid prism. -/
theorem roof_disjoint_synthesizes_volume_witness :
    (∀ g ∈ c7Spec.geos,
      polygonRelationship g.1 sqRoom.boundary (1 / 100) = -1) ∧
    ((roomVolumeWithRoof cexOps sqRoom c7Spec (1 / 100)).isFailure =
      false ∧
    roomVolumeWithRoof cexOps sqRoom c7Spec (1 / 100) =
      .success (prismPolyface sqRoom (1 / 100)) [-1] none) :=
  ⟨by with_unfolding_all decide,
   roof_disjoint_synthesizes_volume cexOps sqRoom c7Spec (1 / 100)
    (by with_unfolding_all decide) (by with_unfolding_all decide)
    rfl (by with_unfolding_all decide) (by with_unfolding_all rfl)
    (by with_unfolding_all rfl) rfl (by with_unfolding_all decide)
    (by with_unfolding_all decide) (by with_unfolding_all decide)⟩

end Dragonfly
